import Mathlib

/-! Channel watchdog of nvgpu (`drivers/gpu/nvgpu/common/fifo/watchdog.c`).

A shallow embedding of the per-channel watchdog.  Every C function of
`watchdog.c` becomes a Lean function of the same name that takes the
watchdog part of the channel (`ch->wdt`) and returns the new watchdog state
together with the list of externally visible events of the call, in program
order: lock operations, accesses to the fields of `ch->wdt`, calls of the
collaborators (serviceability test, timer, progress probe, logging,
debug dump, tsg force reset).

One call is executed sequentially: the answers of the collaborators during
the call are collected in a `World` value, which is constant for the call.
-/

namespace Nvgpu

/-! ## Data model -/

/-- Build-time configuration: the `#ifdef` switches that `watchdog.c` tests. -/
structure BuildConfig where
  /-- The tsg force-reset call of the timeout handler is compiled only under
  `#ifdef CONFIG_NVGPU_CHANNEL_TSG_CONTROL`. -/
  CONFIG_NVGPU_CHANNEL_TSG_CONTROL : Bool
  deriving DecidableEq, Repr

/-- Error notifier codes of `nvgpu/error_notifier.h`.  The header is not among
the sources; the one code the watchdog passes is named, any other code of the
enumeration is `other n`. -/
inductive ErrNotifier
  | NVGPU_ERR_NOTIFIER_FIFO_ERROR_IDLE_TIMEOUT
  | other (n : Nat)
  deriving DecidableEq, Repr

/-- The timer `struct nvgpu_timeout` as far as the watchdog is concerned: the
absolute expiry time (the deadline), in the unit of `limit_ms`. -/
structure nvgpu_timeout where
  time : Nat
  deriving DecidableEq, Repr

/-- The watchdog part `ch->wdt` of a channel, with the fields `watchdog.c`
uses (the spinlock `lock` is represented by the lock events of the trace).
`gp_get` is a `u32`, `pb_get` a `u64` in the source; they are only copied and
compared, never computed with. -/
structure nvgpu_channel_wdt where
  enabled : Bool
  running : Bool
  timer : nvgpu_timeout
  limit_ms : Nat
  gp_get : Nat
  pb_get : Nat
  debug_dump : Bool
  deriving DecidableEq, Repr

/-- The fields of `ch->wdt`, to name field accesses in a trace. -/
inductive WdtField
  | enabled | running | timer | limit_ms | gp_get | pb_get | debug_dump
  deriving DecidableEq, Repr

/-- Externally visible steps of a watchdog operation. -/
inductive Event
  | spinlock_acquire
  | spinlock_release
  | rd (f : WdtField)
  | wr (f : WdtField)
  | is_timeouts_enabled
  | check_unserviceable
  | timeout_init
  | timeout_peek_expired
  | userd_gp_get
  | userd_pb_get
  | log_fn
  | log_err
  | log_info
  | gr_debug_dump
  | force_reset (err_code : ErrNotifier) (verbose : Bool)
  deriving DecidableEq, Repr

/-- What the collaborators of the watchdog answer during one call. -/
structure World where
  /-- Result of `nvgpu_is_timeouts_enabled(ch->g)`: the global timeout policy. -/
  timeouts_enabled : Bool
  /-- Result of `nvgpu_channel_check_unserviceable(ch)`. -/
  unserviceable : Bool
  /-- Current time of the CPU timer. -/
  now : Nat
  /-- Status that `nvgpu_timeout_init` returns (0 is success). -/
  timeout_init_ret : Int
  /-- Result of `g->ops.userd.gp_get(g, ch)`. -/
  userd_gp_get : Nat
  /-- Result of `g->ops.userd.pb_get(g, ch)`. -/
  userd_pb_get : Nat
  /-- Status that `g->ops.tsg.force_reset` returns (0 is success). -/
  force_reset_ret : Int
  deriving DecidableEq, Repr

/-! ## Timer helpers (not part of `watchdog.c`) -/

/-- Modelled from the spec: `nvgpu_timeout_init` is declared in the nvgpu
timer header and defined outside the available sources.  The spec says
"initialize timer: compute `deadline = now + limit`" and that timer
initialisation may fail (a configuration error).  On success the deadline is
`now + duration` and the status is 0; on failure the status is the non-zero
error and the timer is not initialised (left as it was). -/
def nvgpu_timeout_init (w : World) (timeout : nvgpu_timeout) (duration : Nat) :
    Int × nvgpu_timeout :=
  if w.timeout_init_ret ≠ 0 then (w.timeout_init_ret, timeout)
  else (0, { time := w.now + duration })

/-- Modelled from the spec: `nvgpu_timeout_peek_expired` is defined outside
the available sources.  The spec separates "`now < deadline`" (the deadline
has not yet elapsed) from "`now >= deadline`" (deadline elapsed): the timer
counts as expired exactly when `now >= deadline`. -/
def nvgpu_timeout_peek_expired (w : World) (timeout : nvgpu_timeout) : Bool :=
  decide (timeout.time ≤ w.now)

/-! ## The operations of `watchdog.c` -/

/-- Embedding of `static void nvgpu_channel_wdt_init(struct nvgpu_channel *ch)`
(called with the lock held). -/
def nvgpu_channel_wdt_init (w : World) (s : nvgpu_channel_wdt) :
    nvgpu_channel_wdt × List Event :=
  if w.unserviceable then
    ({ s with running := false }, [Event.check_unserviceable, Event.wr WdtField.running])
  else
    let r := nvgpu_timeout_init w s.timer s.limit_ms
    let s1 := { s with timer := r.2 }
    let t1 := [Event.check_unserviceable, Event.rd WdtField.limit_ms, Event.timeout_init]
    if r.1 ≠ 0 then
      (s1, t1 ++ [Event.log_err])
    else
      ({ s1 with gp_get := w.userd_gp_get, pb_get := w.userd_pb_get, running := true },
        t1 ++ [Event.wr WdtField.timer, Event.userd_gp_get, Event.wr WdtField.gp_get,
          Event.userd_pb_get, Event.wr WdtField.pb_get, Event.wr WdtField.running])

/-- Embedding of `void nvgpu_channel_wdt_start(struct nvgpu_channel *ch)`. -/
def nvgpu_channel_wdt_start (w : World) (s : nvgpu_channel_wdt) :
    nvgpu_channel_wdt × List Event :=
  if !w.timeouts_enabled then
    (s, [Event.is_timeouts_enabled])
  else if !s.enabled then
    (s, [Event.is_timeouts_enabled, Event.rd WdtField.enabled])
  else
    let t0 := [Event.is_timeouts_enabled, Event.rd WdtField.enabled, Event.spinlock_acquire,
      Event.rd WdtField.running]
    if s.running then
      (s, t0 ++ [Event.spinlock_release])
    else
      let r := nvgpu_channel_wdt_init w s
      (r.1, t0 ++ r.2 ++ [Event.spinlock_release])

/-- Embedding of `bool nvgpu_channel_wdt_stop(struct nvgpu_channel *ch)`: the
first component is the returned `was_running`. -/
def nvgpu_channel_wdt_stop (s : nvgpu_channel_wdt) :
    Bool × nvgpu_channel_wdt × List Event :=
  let was_running := s.running
  (was_running, { s with running := false },
    [Event.spinlock_acquire, Event.rd WdtField.running, Event.wr WdtField.running,
      Event.spinlock_release])

/-- Embedding of `void nvgpu_channel_wdt_continue(struct nvgpu_channel *ch)`. -/
def nvgpu_channel_wdt_continue (s : nvgpu_channel_wdt) :
    nvgpu_channel_wdt × List Event :=
  ({ s with running := true },
    [Event.spinlock_acquire, Event.wr WdtField.running, Event.spinlock_release])

/-- Embedding of `static void nvgpu_channel_wdt_rewind(struct nvgpu_channel *ch)`. -/
def nvgpu_channel_wdt_rewind (w : World) (s : nvgpu_channel_wdt) :
    nvgpu_channel_wdt × List Event :=
  if s.running then
    let r := nvgpu_channel_wdt_init w s
    (r.1, [Event.spinlock_acquire, Event.rd WdtField.running] ++ r.2 ++ [Event.spinlock_release])
  else
    (s, [Event.spinlock_acquire, Event.rd WdtField.running, Event.spinlock_release])

/-- Embedding of `static void nvgpu_channel_wdt_handler(struct nvgpu_channel *ch)`. -/
def nvgpu_channel_wdt_handler (cfg : BuildConfig) (w : World) (s : nvgpu_channel_wdt) :
    nvgpu_channel_wdt × List Event :=
  if w.unserviceable then
    let r := nvgpu_channel_wdt_stop s
    (r.2.1, [Event.log_fn, Event.check_unserviceable] ++ r.2.2 ++
      (if r.1 == true then [Event.log_info] else []))
  else
    let gp_get := s.gp_get
    let pb_get := s.pb_get
    let new_gp_get := w.userd_gp_get
    let new_pb_get := w.userd_pb_get
    let t0 := [Event.log_fn, Event.check_unserviceable, Event.spinlock_acquire,
      Event.rd WdtField.gp_get, Event.rd WdtField.pb_get, Event.spinlock_release,
      Event.userd_gp_get, Event.userd_pb_get]
    if new_gp_get ≠ gp_get ∨ new_pb_get ≠ pb_get then
      let r := nvgpu_channel_wdt_rewind w s
      (r.1, t0 ++ r.2)
    else if !nvgpu_timeout_peek_expired w s.timer then
      (s, t0 ++ [Event.rd WdtField.timer, Event.timeout_peek_expired])
    else
      (s, t0 ++ [Event.rd WdtField.timer, Event.timeout_peek_expired, Event.log_err,
          Event.rd WdtField.debug_dump] ++
        (if s.debug_dump then [Event.gr_debug_dump] else []) ++
        (if cfg.CONFIG_NVGPU_CHANNEL_TSG_CONTROL then
          [Event.rd WdtField.debug_dump,
            Event.force_reset ErrNotifier.NVGPU_ERR_NOTIFIER_FIFO_ERROR_IDLE_TIMEOUT
              s.debug_dump] ++
            (if w.force_reset_ret ≠ 0 then [Event.log_err] else [])
        else []))

/-- Embedding of `void nvgpu_channel_wdt_check(struct nvgpu_channel *ch)`. -/
def nvgpu_channel_wdt_check (cfg : BuildConfig) (w : World) (s : nvgpu_channel_wdt) :
    nvgpu_channel_wdt × List Event :=
  let running := s.running
  let t0 := [Event.spinlock_acquire, Event.rd WdtField.running, Event.spinlock_release]
  if running then
    let r := nvgpu_channel_wdt_handler cfg w s
    (r.1, t0 ++ r.2)
  else
    (s, t0)

/-! ## Observations on traces -/

/-- The tsg force-reset calls of a trace, in order: reason code and the
`verbose` argument of each call. -/
def force_resets : List Event → List (ErrNotifier × Bool)
  | [] => []
  | Event.force_reset c v :: t => (c, v) :: force_resets t
  | _ :: t => force_resets t

/-- Number of reads of the progress probe (`userd.gp_get`, `userd.pb_get`) in
a trace. -/
def probe_reads (t : List Event) : Nat :=
  t.count Event.userd_gp_get + t.count Event.userd_pb_get


/-! ## Scenario of the specification

`limit = 100`, the watchdog was started at `t = 0` with snapshot `(5, 5)`. -/

/-- The armed watchdog of the scenario: deadline 100, snapshot `(5, 5)`. -/
def scenario_wdt : nvgpu_channel_wdt :=
  { enabled := true, running := true, timer := { time := 100 }, limit_ms := 100,
    gp_get := 5, pb_get := 5, debug_dump := true }

/-- The same watchdog before it was started (idle, timer never set). -/
def scenario_idle : nvgpu_channel_wdt :=
  { enabled := true, running := false, timer := { time := 0 }, limit_ms := 100,
    gp_get := 0, pb_get := 0, debug_dump := true }

/-- A serviceable unit at time `now` whose probe reads `(gp, pb)`; timeouts
are enabled and every collaborator succeeds. -/
def scenario_world (now gp pb : Nat) : World :=
  { timeouts_enabled := true, unserviceable := false, now := now, timeout_init_ret := 0,
    userd_gp_get := gp, userd_pb_get := pb, force_reset_ret := 0 }

/-! ## The channel table and `restart_all_channels` -/

/-- One slot `chid` of the channel table of `g->fifo` during a walk over the
table: whether `nvgpu_channel_from_id` can take a reference to the channel,
what the collaborators of this channel answer while it is visited, and the
channel's watchdog. -/
structure nvgpu_channel where
  referenceable : Bool
  env : World
  wdt : nvgpu_channel_wdt
  deriving DecidableEq, Repr

/-- Events of a walk over the channel table; the events of a channel's own
watchdog carry the channel id. -/
inductive FifoEvent
  | channel_from_id (chid : Nat)
  | channel_put (chid : Nat)
  | on_channel (chid : Nat) (e : Event)
  deriving DecidableEq, Repr

/-- Modelled from the spec: `nvgpu_channel_from_id` is defined outside the
available sources.  It hands out the channel of a slot, or `NULL` (`none`)
when the channel cannot be referenced. -/
def nvgpu_channel_from_id (slot : nvgpu_channel) : Option nvgpu_channel :=
  if slot.referenceable then some slot else none

/-- Body of the `for` loop of `nvgpu_channel_wdt_restart_all_channels` for the
slot `chid`. -/
def restart_all_channels_body (chid : Nat) (slot : nvgpu_channel) :
    nvgpu_channel × List FifoEvent :=
  match nvgpu_channel_from_id slot with
  | some ch =>
    let r :=
      if !ch.env.unserviceable then
        let q := nvgpu_channel_wdt_rewind ch.env ch.wdt
        (q.1, [Event.check_unserviceable] ++ q.2)
      else
        (ch.wdt, [Event.check_unserviceable])
    ({ ch with wdt := r.1 },
      [FifoEvent.channel_from_id chid] ++ r.2.map (FifoEvent.on_channel chid) ++
        [FifoEvent.channel_put chid])
  | none => (slot, [FifoEvent.channel_from_id chid])

/-- The `for (chid = 0; chid < f->num_channels; chid++)` loop, from slot
`chid` on; the list holds the slots `chid, chid + 1, ...` of the table. -/
def restart_all_channels_loop : Nat → List nvgpu_channel → List nvgpu_channel × List FifoEvent
  | _, [] => ([], [])
  | chid, slot :: rest =>
    let r := restart_all_channels_body chid slot
    let rs := restart_all_channels_loop (chid + 1) rest
    (r.1 :: rs.1, r.2 ++ rs.2)

/-- Embedding of `void nvgpu_channel_wdt_restart_all_channels(struct gk20a *g)`
on the channel table of `g->fifo`. -/
def nvgpu_channel_wdt_restart_all_channels (f : List nvgpu_channel) :
    List nvgpu_channel × List FifoEvent :=
  restart_all_channels_loop 0 f

/-- The watchdog events of the channels in a walk over the table. -/
def channel_events : List FifoEvent → List Event
  | [] => []
  | FifoEvent.on_channel _ e :: t => e :: channel_events t
  | _ :: t => channel_events t

/-! ## Executions: sequences of operations on one unit -/

/-- A call of one of the watchdog operations on a unit, with the answers of
the collaborators during the call.  `wdt_restart_all` is the unit's share of a
`nvgpu_channel_wdt_restart_all_channels` walk. -/
inductive Op
  | wdt_start (w : World)
  | wdt_stop
  | wdt_continue
  | wdt_rewind (w : World)
  | wdt_restart_all (referenceable : Bool) (w : World)
  | wdt_check (w : World)
  deriving DecidableEq, Repr

/-- One operation on a watchdog state: the value returned to the caller (only
`stop` returns one), the new state and the trace. -/
def wdt_step (cfg : BuildConfig) (op : Op) (s : nvgpu_channel_wdt) :
    Option Bool × nvgpu_channel_wdt × List Event :=
  match op with
  | Op.wdt_start w => (none, nvgpu_channel_wdt_start w s)
  | Op.wdt_stop =>
    let r := nvgpu_channel_wdt_stop s
    (some r.1, r.2)
  | Op.wdt_continue => (none, nvgpu_channel_wdt_continue s)
  | Op.wdt_rewind w => (none, nvgpu_channel_wdt_rewind w s)
  | Op.wdt_restart_all referenceable w =>
    let r := restart_all_channels_body 0 { referenceable := referenceable, env := w, wdt := s }
    (none, r.1.wdt, channel_events r.2)
  | Op.wdt_check w => (none, nvgpu_channel_wdt_check cfg w s)

/-- The collaborators' answers an operation was called with. -/
def Op.world : Op → Option World
  | Op.wdt_start w => some w
  | Op.wdt_stop => none
  | Op.wdt_continue => none
  | Op.wdt_rewind w => some w
  | Op.wdt_restart_all _ w => some w
  | Op.wdt_check w => some w

/-- Whether an operation is a `start`. -/
def Op.is_start : Op → Bool
  | Op.wdt_start _ => true
  | _ => false

/-- Time and captured counters of a successful timer (re)initialisation. -/
structure InitRecord where
  t_init : Nat
  gp_get : Nat
  pb_get : Nat
  deriving DecidableEq, Repr

/-- History of an execution: the most recent successful timer
(re)initialisation, and whether some `start` has armed the timer so far. -/
structure History where
  last_init : Option InitRecord
  started : Bool
  deriving DecidableEq, Repr

/-- Whether a call (re)initialised the timer successfully: `nvgpu_timeout_init`
was called and returned 0. -/
def timer_initialised (op : Op) (trace : List Event) : Bool :=
  match op.world with
  | some w => trace.contains Event.timeout_init && decide (w.timeout_init_ret = 0)
  | none => false

/-- History after a call with the given trace. -/
def History.after (h : History) (op : Op) (trace : List Event) : History :=
  match op.world with
  | some w =>
    if timer_initialised op trace then
      { last_init := some { t_init := w.now, gp_get := w.userd_gp_get, pb_get := w.userd_pb_get },
        started := h.started || op.is_start }
    else h
  | none => h

/-- Record of one step of an execution. -/
structure Step where
  op : Op
  /-- History before the step. -/
  history : History
  state_before : nvgpu_channel_wdt
  ret : Option Bool
  state_after : nvgpu_channel_wdt
  events : List Event
  deriving DecidableEq, Repr

/-- Run a sequence of operations from a state and a history: the final state
and the record of every step. -/
def wdt_run (cfg : BuildConfig) : List Op → nvgpu_channel_wdt → History →
    nvgpu_channel_wdt × List Step
  | [], s, _ => (s, [])
  | op :: ops, s, h =>
    let r := wdt_step cfg op s
    let rest := wdt_run cfg ops r.2.1 (h.after op r.2.2)
    let st : Step :=
      { op := op, history := h, state_before := s, ret := r.1, state_after := (r.2).1,
        events := (r.2).2 }
    (rest.1, st :: rest.2)

/-- The history of an execution that has not begun. -/
def History.none : History := { last_init := Option.none, started := false }

/-- All tsg force-reset calls of an execution, in order. -/
def recoveries (log : List Step) : List (ErrNotifier × Bool) :=
  (log.map (fun st => force_resets st.events)).flatten

/-! ## The specification's wording of `rewind` -/

/-- The initialisation step of `start` in the words of the specification (for
a timer initialisation that succeeds): "if unit is not serviceable, mark
not-running and return.  Else initialize timer: compute
`deadline = now + limit`; snapshot current progress counters via
ProgressProbe; set `running = true`". -/
def spec_init_step (w : World) (s : nvgpu_channel_wdt) : nvgpu_channel_wdt :=
  if w.unserviceable then { s with running := false }
  else { s with timer := { time := w.now + s.limit_ms }, gp_get := w.userd_gp_get,
                pb_get := w.userd_pb_get, running := true }

/-- The operation `rewind` in the words of the specification: "if `running`,
behaves exactly like re-running the initialization step of `start` (fresh
deadline, fresh snapshot); else no-op". -/
def spec_rewind (w : World) (s : nvgpu_channel_wdt) : nvgpu_channel_wdt :=
  if s.running then spec_init_step w s else s

/-! ## Scenario D of the specification -/

/-- The group of scenario D at `t = 150`, every probe reading `(7, 5)`: a
running unit, a unit that is not running, an unserviceable (still running)
unit, and a slot whose channel cannot be referenced. -/
def scenario_group : List nvgpu_channel :=
  [ { referenceable := true, env := scenario_world 150 7 5, wdt := scenario_wdt },
    { referenceable := true, env := scenario_world 150 7 5, wdt := scenario_idle },
    { referenceable := true, env := { scenario_world 150 7 5 with unserviceable := true },
      wdt := scenario_wdt },
    { referenceable := false, env := scenario_world 150 7 5, wdt := scenario_wdt } ]

/-- Whether an operation is one of `check`, `rewind`, `rewind_all`. -/
def Op.is_check_or_rewind : Op → Bool
  | Op.wdt_check _ => true
  | Op.wdt_rewind _ => true
  | Op.wdt_restart_all _ _ => true
  | _ => false

/-! ## Counting `start` and `stop` calls in an execution -/

/-- Number of `start` calls of an execution. -/
def start_calls (log : List Step) : Nat :=
  log.countP (fun st => st.op.is_start)

/-- Number of `start` calls of an execution made while the watchdog was not
running. -/
def arming_starts (log : List Step) : Nat :=
  log.countP (fun st => st.op.is_start && !st.state_before.running)

/-- Number of `stop` calls of an execution that returned true. -/
def stops_returning_true (log : List Step) : Nat :=
  log.countP (fun st => st.ret == some true)

/-- A `stop`, or a `start` with the global timeout policy enabled, the unit
serviceable and timer initialisation succeeding. -/
def Op.is_stop_or_able_start : Op → Bool
  | Op.wdt_stop => true
  | Op.wdt_start w => w.timeouts_enabled && !w.unserviceable && decide (w.timeout_init_ret = 0)
  | _ => false

/-! ## The timer and the history of an execution -/

/-- The watchdog state agrees with the history of the execution, for the
configured limit `L`: the limit is `L`; a running watchdog, and a history in
which a `start` armed the timer, have a most recent successful timer
initialisation; and the deadline and the snapshot are those of that
initialisation. -/
def history_agrees (L : Nat) (s : nvgpu_channel_wdt) (h : History) : Prop :=
  s.limit_ms = L ∧
  (s.running = true → h.last_init ≠ Option.none) ∧
  (h.started = true → h.last_init ≠ Option.none) ∧
  ∀ r, h.last_init = some r →
    s.timer.time = r.t_init + L ∧ s.gp_get = r.gp_get ∧ s.pb_get = r.pb_get

/-- An execution on the idle scenario watchdog: `start` at `t = 0` with probe
`(5, 5)`, a check at `t = 50`, `stop` and `continue`, a group rewind while the
timer initialisation fails, and a check at `t = 150`, the probe still at
`(5, 5)`. -/
def scenario_execution : List Op :=
  [Op.wdt_start (scenario_world 0 5 5), Op.wdt_check (scenario_world 50 5 5), Op.wdt_stop,
    Op.wdt_continue,
    Op.wdt_restart_all true { scenario_world 120 5 5 with timeout_init_ret := -22 },
    Op.wdt_check (scenario_world 150 5 5)]

/-! ## Lock discipline on traces -/

/-- No tsg force reset and no debug dump happens while the lock is held;
`held` tells whether the lock is held at the start of the trace. -/
def calls_outside_lock : Bool → List Event → Bool
  | _, [] => true
  | _, Event.spinlock_acquire :: t => calls_outside_lock true t
  | _, Event.spinlock_release :: t => calls_outside_lock false t
  | held, Event.force_reset _ _ :: t => !held && calls_outside_lock held t
  | held, Event.gr_debug_dump :: t => !held && calls_outside_lock held t
  | held, _ :: t => calls_outside_lock held t

/-- The lock is never acquired while held nor released while free, and it is
free at the end of the trace. -/
def lock_balanced : Bool → List Event → Bool
  | held, [] => !held
  | held, Event.spinlock_acquire :: t => !held && lock_balanced true t
  | held, Event.spinlock_release :: t => held && lock_balanced false t
  | held, _ :: t => lock_balanced held t

/-- The accesses to fields of `ch->wdt` made while the lock is not held, in
order. -/
def unlocked_accesses : Bool → List Event → List Event
  | _, [] => []
  | _, Event.spinlock_acquire :: t => unlocked_accesses true t
  | _, Event.spinlock_release :: t => unlocked_accesses false t
  | held, Event.rd f :: t =>
    if held then unlocked_accesses held t else Event.rd f :: unlocked_accesses held t
  | held, Event.wr f :: t =>
    if held then unlocked_accesses held t else Event.wr f :: unlocked_accesses held t
  | held, _ :: t => unlocked_accesses held t

/-- Accesses the lock of the watchdog always covers: every write, and the
reads of `running`, `gp_get`, `pb_get` and `limit_ms`. -/
def Event.needs_lock : Event → Bool
  | Event.wr _ => true
  | Event.rd WdtField.running => true
  | Event.rd WdtField.gp_get => true
  | Event.rd WdtField.pb_get => true
  | Event.rd WdtField.limit_ms => true
  | _ => false

/-! ## `check` as a sequence of atomic steps, interleaved with `stop` -/

/-- Where a `check` in progress stands: the next atomic step of
`nvgpu_channel_wdt_check` and `nvgpu_channel_wdt_handler`.  A step is one
region under the lock or one call of a collaborator; `read_probe` carries the
locals `gp_get`, `pb_get` of the handler. -/
inductive CheckPc
  | read_running
  | test_serviceable
  | stop_unserviceable
  | read_snapshot
  | read_probe (gp_get pb_get : Nat)
  | rewind
  | test_expired
  | recover
  | done
  deriving DecidableEq, Repr

/-- One atomic step of a `check` in progress on the shared watchdog state. -/
def check_step (cfg : BuildConfig) (w : World) (pc : CheckPc) (s : nvgpu_channel_wdt) :
    CheckPc × nvgpu_channel_wdt × List Event :=
  match pc with
  | CheckPc.read_running =>
    (if s.running then CheckPc.test_serviceable else CheckPc.done, s,
      [Event.spinlock_acquire, Event.rd WdtField.running, Event.spinlock_release])
  | CheckPc.test_serviceable =>
    (if w.unserviceable then CheckPc.stop_unserviceable else CheckPc.read_snapshot, s,
      [Event.log_fn, Event.check_unserviceable])
  | CheckPc.stop_unserviceable =>
    let r := nvgpu_channel_wdt_stop s
    (CheckPc.done, r.2.1, r.2.2 ++ (if r.1 == true then [Event.log_info] else []))
  | CheckPc.read_snapshot =>
    (CheckPc.read_probe s.gp_get s.pb_get, s,
      [Event.spinlock_acquire, Event.rd WdtField.gp_get, Event.rd WdtField.pb_get,
        Event.spinlock_release])
  | CheckPc.read_probe gp_get pb_get =>
    (if w.userd_gp_get ≠ gp_get ∨ w.userd_pb_get ≠ pb_get then CheckPc.rewind
      else CheckPc.test_expired, s, [Event.userd_gp_get, Event.userd_pb_get])
  | CheckPc.rewind =>
    let r := nvgpu_channel_wdt_rewind w s
    (CheckPc.done, r.1, r.2)
  | CheckPc.test_expired =>
    (if !nvgpu_timeout_peek_expired w s.timer then CheckPc.done else CheckPc.recover, s,
      [Event.rd WdtField.timer, Event.timeout_peek_expired])
  | CheckPc.recover =>
    (CheckPc.done, s,
      [Event.log_err, Event.rd WdtField.debug_dump] ++
        (if s.debug_dump then [Event.gr_debug_dump] else []) ++
        (if cfg.CONFIG_NVGPU_CHANNEL_TSG_CONTROL then
          [Event.rd WdtField.debug_dump,
            Event.force_reset ErrNotifier.NVGPU_ERR_NOTIFIER_FIFO_ERROR_IDLE_TIMEOUT
              s.debug_dump] ++
            (if w.force_reset_ret ≠ 0 then [Event.log_err] else [])
        else []))
  | CheckPc.done => (CheckPc.done, s, [])

/-- The next `n` atomic steps of a `check` in progress. -/
def check_run (cfg : BuildConfig) (w : World) :
    Nat → CheckPc → nvgpu_channel_wdt → CheckPc × nvgpu_channel_wdt × List Event
  | 0, pc, s => (pc, s, [])
  | n + 1, pc, s =>
    let r := check_step cfg w pc s
    let rest := check_run cfg w n r.1 r.2.1
    (rest.1, rest.2.1, r.2.2 ++ rest.2.2)

/-- A `check` interleaved with a `stop` of another context: `k` atomic steps
of the check, then the whole `stop` (one region under the lock), then the
rest of the check (a check has at most six steps). -/
def check_with_stop (cfg : BuildConfig) (w : World) (k : Nat) (s : nvgpu_channel_wdt) :
    nvgpu_channel_wdt × List Event :=
  let a := check_run cfg w k CheckPc.read_running s
  let b := nvgpu_channel_wdt_stop a.2.1
  let c := check_run cfg w 6 a.1 b.2.1
  (c.2.1, a.2.2 ++ b.2.2 ++ c.2.2)

/-- Whether, after `k` steps of a check, the recovery decision (the expiry
test) has not been taken yet. -/
def before_decision (cfg : BuildConfig) (w : World) (k : Nat) (s : nvgpu_channel_wdt) : Bool :=
  match (check_run cfg w k CheckPc.read_running s).1 with
  | CheckPc.recover => false
  | CheckPc.done => false
  | _ => true

/-- A freshly created watchdog: zeroed, not enabled, never started. -/
def fresh_wdt (limit_ms : Nat) : nvgpu_channel_wdt :=
  { enabled := false, running := false, timer := { time := 0 }, limit_ms := limit_ms,
    gp_get := 0, pb_get := 0, debug_dump := false }

/-! ## `gr_tu104_get_offset_in_gpccs_segment` (`hal/gr/gr/gr_tu104.c`) -/

/-- The address types `enum ctxsw_addr_type` that `gr_tu104.c` names; the
enumeration is declared outside the available sources, every other member is
`other n`. -/
inductive ctxsw_addr_type
  | CTXSW_ADDR_TYPE_TPC
  | CTXSW_ADDR_TYPE_PPC
  | CTXSW_ADDR_TYPE_GPC
  | CTXSW_ADDR_TYPE_EGPC
  | CTXSW_ADDR_TYPE_ETPC
  | other (n : Nat)
  deriving DecidableEq, Repr

/-- Error codes returned (negated) by the function. -/
inductive Errno
  | EINVAL
  deriving DecidableEq, Repr

/-- The values the function reads from `g`. -/
structure gr_tu104_chip where
  /-- Result of `nvgpu_get_litter_value(g, GPU_LIT_NUM_PES_PER_GPC)`. -/
  num_pes_per_gpc : Nat
  /-- The field `nvgpu_netlist_get_tpc_ctxsw_regs(g)->count`. -/
  tpc_count : Nat
  /-- The field `nvgpu_netlist_get_gpc_ctxsw_regs(g)->count`. -/
  gpc_count : Nat
  deriving DecidableEq, Repr

/-- Multiplication of two `u32`. -/
def u32_mul (a b : Nat) : Nat := (a * b) % 2 ^ 32

/-- Addition of two `u32`. -/
def u32_add (a b : Nat) : Nat := (a + b) % 2 ^ 32

/-- Left shift of a `u32`: `x << n`. -/
def u32_shl (x n : Nat) : Nat := (x * 2 ^ n) % 2 ^ 32

/-- Modelled from the spec: the macro `ALIGN` is defined outside the available
sources.  By the comment at its use ("aligned to next 256 byte") it rounds
its first argument up to a multiple of the second.  Its value has the type of
the argument, a `u32`, and is computed in that type: the addition of `a - 1`
wraps modulo `2 ^ 32`. -/
def ALIGN (x a : Nat) : Nat := (u32_add x (a - 1)) / a * a

/-- Embedding of `int gr_tu104_get_offset_in_gpccs_segment(...)`: `ok v` stands
for the return value 0 with `v` written to `*__offset_in_segment`, `error e`
for the return value `-e` with nothing written. -/
def gr_tu104_get_offset_in_gpccs_segment (g : gr_tu104_chip) (addr_type : ctxsw_addr_type)
    (num_tpcs num_ppcs reg_list_ppc_count : Nat) : Except Errno Nat :=
  let num_pes_per_gpc := g.num_pes_per_gpc
  let tpc_count := g.tpc_count
  let gpc_count := g.gpc_count
  if addr_type = ctxsw_addr_type.CTXSW_ADDR_TYPE_TPC then
    Except.ok 0
  else if addr_type = ctxsw_addr_type.CTXSW_ADDR_TYPE_PPC then
    Except.ok (u32_shl (u32_mul tpc_count num_tpcs) 2)
  else if addr_type = ctxsw_addr_type.CTXSW_ADDR_TYPE_GPC then
    if num_pes_per_gpc > 1 then
      Except.ok (u32_add (u32_shl (u32_mul tpc_count num_tpcs) 2)
        (u32_shl (u32_mul reg_list_ppc_count num_ppcs) 2))
    else
      Except.ok (u32_shl (u32_mul tpc_count num_tpcs) 2)
  else if addr_type = ctxsw_addr_type.CTXSW_ADDR_TYPE_EGPC ∨
      addr_type = ctxsw_addr_type.CTXSW_ADDR_TYPE_ETPC then
    let offset_in_segment :=
      if num_pes_per_gpc > 1 then
        u32_add (u32_add (u32_shl (u32_mul tpc_count num_tpcs) 2)
          (u32_shl (u32_mul reg_list_ppc_count num_ppcs) 2)) (u32_shl gpc_count 2)
      else
        u32_add (u32_shl (u32_mul tpc_count num_tpcs) 2) (u32_shl gpc_count 2)
    Except.ok (ALIGN offset_in_segment 256)
  else
    Except.error Errno.EINVAL

/-- The smallest multiple of `a` that is at least `x` (for `a > 0`). -/
def least_multiple_ge (a x : Nat) : Nat := (x + (a - 1)) / a * a

/-- The sum that is rounded up for EGPC and ETPC: with `u32` arithmetic modulo
`2 ^ 32`, `T + P + G` if `num_pes_per_gpc > 1`, else `T + G`, where
`T = (tpc_count * num_tpcs) * 4`, `P = (reg_list_ppc_count * num_ppcs) * 4`
and `G = gpc_count * 4`. -/
def egpc_etpc_sum (g : gr_tu104_chip) (num_tpcs num_ppcs reg_list_ppc_count : Nat) : Nat :=
  let T := ((g.tpc_count * num_tpcs) * 4) % 2 ^ 32
  let P := ((reg_list_ppc_count * num_ppcs) * 4) % 2 ^ 32
  let G := (g.gpc_count * 4) % 2 ^ 32
  if g.num_pes_per_gpc > 1 then (T + P + G) % 2 ^ 32 else (T + G) % 2 ^ 32

/-- The reference in the words of the specification: with `u32` arithmetic
modulo `2 ^ 32`, `T = (tpc_count * num_tpcs) * 4`, `P = (reg_list_ppc_count *
num_ppcs) * 4`, `G = gpc_count * 4`: TPC gives 0, PPC gives `T`, GPC gives
`T + P` if `num_pes_per_gpc > 1` else `T`, EGPC and ETPC give the smallest
multiple of 256 that is at least `T + P + G` if `num_pes_per_gpc > 1` else
`T + G`; every other address type gives `-EINVAL`. -/
def spec_offset_in_gpccs_segment (g : gr_tu104_chip) (addr_type : ctxsw_addr_type)
    (num_tpcs num_ppcs reg_list_ppc_count : Nat) : Except Errno Nat :=
  let T := ((g.tpc_count * num_tpcs) * 4) % 2 ^ 32
  let P := ((reg_list_ppc_count * num_ppcs) * 4) % 2 ^ 32
  match addr_type with
  | ctxsw_addr_type.CTXSW_ADDR_TYPE_TPC => Except.ok 0
  | ctxsw_addr_type.CTXSW_ADDR_TYPE_PPC => Except.ok T
  | ctxsw_addr_type.CTXSW_ADDR_TYPE_GPC =>
    Except.ok (if g.num_pes_per_gpc > 1 then (T + P) % 2 ^ 32 else T)
  | ctxsw_addr_type.CTXSW_ADDR_TYPE_EGPC =>
    Except.ok (least_multiple_ge 256 (egpc_etpc_sum g num_tpcs num_ppcs reg_list_ppc_count))
  | ctxsw_addr_type.CTXSW_ADDR_TYPE_ETPC =>
    Except.ok (least_multiple_ge 256 (egpc_etpc_sum g num_tpcs num_ppcs reg_list_ppc_count))
  | ctxsw_addr_type.other _ => Except.error Errno.EINVAL

/-- A chip whose TPC register list has `0x3FFFFFFF` entries (one PES per GPC,
no GPC registers): with one TPC the TPC data takes `0xFFFFFFFC` bytes. -/
def wrap_chip : gr_tu104_chip :=
  { num_pes_per_gpc := 1, tpc_count := 1073741823, gpc_count := 0 }

/-- A chip with two PES per GPC, 100 TPC registers and 30 GPC registers. -/
def small_chip : gr_tu104_chip :=
  { num_pes_per_gpc := 2, tpc_count := 100, gpc_count := 30 }

/-! ## Order of events in a trace -/

/-- The events of a trace before the first occurrence of `e`. -/
def events_before (e : Event) (t : List Event) : List Event :=
  t.takeWhile (fun x => x != e)

/-- The events of a trace after the first occurrence of `e`. -/
def events_after (e : Event) (t : List Event) : List Event :=
  (t.dropWhile (fun x => x != e)).drop 1

/-! ## Timeout handler and `check` -/

/-- C1, as stated, fails in a build without `CONFIG_NVGPU_CHANNEL_TSG_CONTROL`:
in scenario A (running, serviceable, snapshot `(5, 5)`, probe `(5, 5)`,
deadline 100, now 150) the handler only logs and dumps, and the trace of
`check` holds no tsg force reset. -/
theorem wdt_check_expired_without_tsg_control_no_recovery :
    scenario_wdt.running = true ∧ (scenario_world 150 5 5).unserviceable = false ∧
    (scenario_world 150 5 5).userd_gp_get = scenario_wdt.gp_get ∧
    (scenario_world 150 5 5).userd_pb_get = scenario_wdt.pb_get ∧
    scenario_wdt.timer.time ≤ (scenario_world 150 5 5).now ∧
    force_resets (nvgpu_channel_wdt_check { CONFIG_NVGPU_CHANNEL_TSG_CONTROL := false }
      (scenario_world 150 5 5) scenario_wdt).2 = [] := by
  decide

/-- C1 (amended): in a build with `CONFIG_NVGPU_CHANNEL_TSG_CONTROL`, for a
running watchdog on a serviceable unit whose probed counters equal the stored
snapshot and whose deadline has elapsed (`now >= deadline`), `check` calls the
tsg force reset exactly once, with the reason code
`NVGPU_ERR_NOTIFIER_FIFO_ERROR_IDLE_TIMEOUT`. -/
theorem wdt_check_expired_recovers_once (cfg : BuildConfig) (w : World)
    (s : nvgpu_channel_wdt)
    (hcfg : cfg.CONFIG_NVGPU_CHANNEL_TSG_CONTROL = true)
    (hrun : s.running = true) (hserv : w.unserviceable = false)
    (hgp : w.userd_gp_get = s.gp_get) (hpb : w.userd_pb_get = s.pb_get)
    (hexp : s.timer.time ≤ w.now) :
    (force_resets (nvgpu_channel_wdt_check cfg w s).2).map Prod.fst =
      [ErrNotifier.NVGPU_ERR_NOTIFIER_FIFO_ERROR_IDLE_TIMEOUT] := by
  cases hd : s.debug_dump <;> by_cases hr : w.force_reset_ret = 0 <;>
    simp [nvgpu_channel_wdt_check, nvgpu_channel_wdt_handler, nvgpu_timeout_peek_expired,
      force_resets, hcfg, hrun, hserv, hgp, hpb, hexp, hd, hr]

/-- Scenario A of the specification, second check: at `t = 150` with probe
`(5, 5)` the recovery is invoked, once. -/
theorem wdt_check_expired_recovers_once_witness :
    (force_resets (nvgpu_channel_wdt_check { CONFIG_NVGPU_CHANNEL_TSG_CONTROL := true }
      (scenario_world 150 5 5) scenario_wdt).2).map Prod.fst =
      [ErrNotifier.NVGPU_ERR_NOTIFIER_FIFO_ERROR_IDLE_TIMEOUT] :=
  wdt_check_expired_recovers_once { CONFIG_NVGPU_CHANNEL_TSG_CONTROL := true }
    (scenario_world 150 5 5) scenario_wdt rfl rfl rfl rfl rfl (by decide)

/-- C2: for a running watchdog on a serviceable unit with timer initialisation
succeeding, if the probed pair differs from the stored snapshot in either
component, then after `check` the snapshot is the probed pair, the deadline is
`now + limit`, `running` is still true and no recovery is invoked; the old
deadline plays no role. -/
theorem wdt_check_progress_rewinds (cfg : BuildConfig) (w : World) (s : nvgpu_channel_wdt)
    (hrun : s.running = true) (hserv : w.unserviceable = false)
    (hinit : w.timeout_init_ret = 0)
    (hprog : w.userd_gp_get ≠ s.gp_get ∨ w.userd_pb_get ≠ s.pb_get) :
    (nvgpu_channel_wdt_check cfg w s).1.gp_get = w.userd_gp_get ∧
    (nvgpu_channel_wdt_check cfg w s).1.pb_get = w.userd_pb_get ∧
    (nvgpu_channel_wdt_check cfg w s).1.timer.time = w.now + s.limit_ms ∧
    (nvgpu_channel_wdt_check cfg w s).1.running = true ∧
    force_resets (nvgpu_channel_wdt_check cfg w s).2 = [] := by
  simp [nvgpu_channel_wdt_check, nvgpu_channel_wdt_handler, nvgpu_channel_wdt_rewind,
    nvgpu_channel_wdt_init, nvgpu_timeout_init, force_resets, hrun, hserv, hinit, hprog]

/-- Scenario B of the specification: `check` at `t = 150` with probe `(7, 5)`
rewinds; the new deadline is 250 and there is no recovery. -/
theorem wdt_check_progress_rewinds_witness :
    (nvgpu_channel_wdt_check { CONFIG_NVGPU_CHANNEL_TSG_CONTROL := true }
      (scenario_world 150 7 5) scenario_wdt).1.timer.time = 250 ∧
    force_resets (nvgpu_channel_wdt_check { CONFIG_NVGPU_CHANNEL_TSG_CONTROL := true }
      (scenario_world 150 7 5) scenario_wdt).2 = [] :=
  have h := wdt_check_progress_rewinds { CONFIG_NVGPU_CHANNEL_TSG_CONTROL := true }
    (scenario_world 150 7 5) scenario_wdt rfl rfl rfl (Or.inl (by decide))
  ⟨h.2.2.1, h.2.2.2.2⟩

/-- C3: for a running watchdog on a serviceable unit, if the probed counters
equal the stored snapshot and `now < deadline`, `check` changes no field of
the watchdog state and invokes no recovery. -/
theorem wdt_check_waiting_unchanged (cfg : BuildConfig) (w : World) (s : nvgpu_channel_wdt)
    (hrun : s.running = true) (hserv : w.unserviceable = false)
    (hgp : w.userd_gp_get = s.gp_get) (hpb : w.userd_pb_get = s.pb_get)
    (hnot : w.now < s.timer.time) :
    (nvgpu_channel_wdt_check cfg w s).1 = s ∧
    force_resets (nvgpu_channel_wdt_check cfg w s).2 = [] := by
  simp [nvgpu_channel_wdt_check, nvgpu_channel_wdt_handler, nvgpu_timeout_peek_expired,
    force_resets, hrun, hserv, hgp, hpb, hnot]

/-- Scenario A of the specification, first check: at `t = 50` with probe
`(5, 5)` nothing happens and the deadline stays 100. -/
theorem wdt_check_waiting_unchanged_witness :
    (nvgpu_channel_wdt_check { CONFIG_NVGPU_CHANNEL_TSG_CONTROL := true }
      (scenario_world 50 5 5) scenario_wdt).1 = scenario_wdt ∧
    force_resets (nvgpu_channel_wdt_check { CONFIG_NVGPU_CHANNEL_TSG_CONTROL := true }
      (scenario_world 50 5 5) scenario_wdt).2 = [] :=
  wdt_check_waiting_unchanged { CONFIG_NVGPU_CHANNEL_TSG_CONTROL := true }
    (scenario_world 50 5 5) scenario_wdt rfl rfl rfl rfl (by decide)

/-- C4: for a watchdog that is not running, `check` is a no-op: the state is
unchanged and no recovery is invoked, whatever the time, the probed counters
and the serviceability of the unit. -/
theorem wdt_check_not_running_noop (cfg : BuildConfig) (w : World) (s : nvgpu_channel_wdt)
    (hrun : s.running = false) :
    (nvgpu_channel_wdt_check cfg w s).1 = s ∧
    force_resets (nvgpu_channel_wdt_check cfg w s).2 = [] := by
  simp [nvgpu_channel_wdt_check, force_resets, hrun]

/-- Scenario C of the specification: after `stop`, `check` at `t = 150` is a
no-op. -/
theorem wdt_check_not_running_noop_witness :
    (nvgpu_channel_wdt_check { CONFIG_NVGPU_CHANNEL_TSG_CONTROL := true }
      (scenario_world 150 5 5) (nvgpu_channel_wdt_stop scenario_wdt).2.1).1 =
        (nvgpu_channel_wdt_stop scenario_wdt).2.1 ∧
    force_resets (nvgpu_channel_wdt_check { CONFIG_NVGPU_CHANNEL_TSG_CONTROL := true }
      (scenario_world 150 5 5) (nvgpu_channel_wdt_stop scenario_wdt).2.1).2 = [] :=
  wdt_check_not_running_noop { CONFIG_NVGPU_CHANNEL_TSG_CONTROL := true }
    (scenario_world 150 5 5) (nvgpu_channel_wdt_stop scenario_wdt).2.1 rfl

/-- C5: for a running watchdog on a unit that is not serviceable, `check` sets
`running` to false, leaves the deadline, the snapshot and every other field
unchanged, and invokes no recovery, whatever the probed counters and the
deadline. -/
theorem wdt_check_unserviceable_stops (cfg : BuildConfig) (w : World) (s : nvgpu_channel_wdt)
    (hrun : s.running = true) (hunserv : w.unserviceable = true) :
    (nvgpu_channel_wdt_check cfg w s).1.running = false ∧
    (nvgpu_channel_wdt_check cfg w s).1.timer = s.timer ∧
    (nvgpu_channel_wdt_check cfg w s).1.gp_get = s.gp_get ∧
    (nvgpu_channel_wdt_check cfg w s).1.pb_get = s.pb_get ∧
    (nvgpu_channel_wdt_check cfg w s).1 = { s with running := false } ∧
    force_resets (nvgpu_channel_wdt_check cfg w s).2 = [] := by
  simp [nvgpu_channel_wdt_check, nvgpu_channel_wdt_handler, nvgpu_channel_wdt_stop,
    force_resets, hrun, hunserv]

/-- A check of the armed scenario watchdog, deadline elapsed, on an
unserviceable unit: the watchdog is stopped, nothing is recovered. -/
theorem wdt_check_unserviceable_stops_witness :
    (nvgpu_channel_wdt_check { CONFIG_NVGPU_CHANNEL_TSG_CONTROL := true }
      { scenario_world 150 5 5 with unserviceable := true } scenario_wdt).1.running = false ∧
    force_resets (nvgpu_channel_wdt_check { CONFIG_NVGPU_CHANNEL_TSG_CONTROL := true }
      { scenario_world 150 5 5 with unserviceable := true } scenario_wdt).2 = [] :=
  have h := wdt_check_unserviceable_stops { CONFIG_NVGPU_CHANNEL_TSG_CONTROL := true }
    { scenario_world 150 5 5 with unserviceable := true } scenario_wdt rfl rfl
  ⟨h.1, h.2.2.2.2.2⟩

/-! ## `start` -/

/-- C6: for a watchdog that is not running, when the global timeout policy is
enabled, the per-unit `enabled` flag is true, the unit is serviceable and
timer initialisation succeeds, `start` yields `running = true`,
`deadline = now + limit` and a snapshot equal to the pair the progress probe
currently returns. -/
theorem wdt_start_arms (w : World) (s : nvgpu_channel_wdt)
    (hrun : s.running = false) (hpol : w.timeouts_enabled = true)
    (hen : s.enabled = true) (hserv : w.unserviceable = false)
    (hinit : w.timeout_init_ret = 0) :
    (nvgpu_channel_wdt_start w s).1.running = true ∧
    (nvgpu_channel_wdt_start w s).1.timer.time = w.now + s.limit_ms ∧
    (nvgpu_channel_wdt_start w s).1.gp_get = w.userd_gp_get ∧
    (nvgpu_channel_wdt_start w s).1.pb_get = w.userd_pb_get := by
  simp [nvgpu_channel_wdt_start, nvgpu_channel_wdt_init, nvgpu_timeout_init,
    hrun, hpol, hen, hserv, hinit]

/-- The setup of the scenarios: `start` at `t = 0` with probe `(5, 5)` and
`limit = 100` arms the idle watchdog with deadline 100 and snapshot `(5, 5)`. -/
theorem wdt_start_arms_witness :
    (nvgpu_channel_wdt_start (scenario_world 0 5 5) scenario_idle).1.running = true ∧
    (nvgpu_channel_wdt_start (scenario_world 0 5 5) scenario_idle).1.timer.time = 0 + 100 ∧
    (nvgpu_channel_wdt_start (scenario_world 0 5 5) scenario_idle).1.gp_get = 5 ∧
    (nvgpu_channel_wdt_start (scenario_world 0 5 5) scenario_idle).1.pb_get = 5 :=
  wdt_start_arms (scenario_world 0 5 5) scenario_idle rfl rfl rfl rfl rfl

/-- C7: for a running watchdog, `start` leaves the deadline, the snapshot and
every other field unchanged, whatever the current time and the probed
counters (and it reads neither timer nor probe); hence `start` applied twice,
in any two worlds, equals `start` applied once. -/
theorem wdt_start_running_unchanged (w w2 : World) (s : nvgpu_channel_wdt)
    (hrun : s.running = true) :
    (nvgpu_channel_wdt_start w s).1 = s ∧
    (nvgpu_channel_wdt_start w s).1.timer = s.timer ∧
    (nvgpu_channel_wdt_start w s).1.gp_get = s.gp_get ∧
    (nvgpu_channel_wdt_start w s).1.pb_get = s.pb_get ∧
    (nvgpu_channel_wdt_start w2 (nvgpu_channel_wdt_start w s).1).1 =
      (nvgpu_channel_wdt_start w s).1 := by
  have h : ∀ v : World, (nvgpu_channel_wdt_start v s).1 = s := by
    intro v
    cases hp : v.timeouts_enabled <;> cases he : s.enabled <;>
      simp [nvgpu_channel_wdt_start, hrun, hp, he]
  simp [h]

/-- A second `start` of the armed scenario watchdog at `t = 40` with probe
`(9, 9)` changes nothing. -/
theorem wdt_start_running_unchanged_witness :
    (nvgpu_channel_wdt_start (scenario_world 40 9 9) scenario_wdt).1 = scenario_wdt :=
  (wdt_start_running_unchanged (scenario_world 40 9 9) (scenario_world 41 9 9)
    scenario_wdt rfl).1

/-- C8: if the global timeout policy is disabled or the per-unit `enabled`
flag is false, `start` is a no-op: no field of the watchdog state changes (so
`running` stays as it was) and the progress probe is not read. -/
theorem wdt_start_disabled_noop (w : World) (s : nvgpu_channel_wdt)
    (hoff : w.timeouts_enabled = false ∨ s.enabled = false) :
    (nvgpu_channel_wdt_start w s).1 = s ∧
    (nvgpu_channel_wdt_start w s).1.running = s.running ∧
    probe_reads (nvgpu_channel_wdt_start w s).2 = 0 := by
  rcases hoff with h | h
  · simp [nvgpu_channel_wdt_start, probe_reads, h]
  · cases hp : w.timeouts_enabled <;> simp [nvgpu_channel_wdt_start, probe_reads, h, hp]

/-- With the global timeout policy off, `start` of the idle scenario watchdog
does nothing. -/
theorem wdt_start_disabled_noop_witness :
    (nvgpu_channel_wdt_start { scenario_world 0 5 5 with timeouts_enabled := false }
      scenario_idle).1 = scenario_idle ∧
    probe_reads (nvgpu_channel_wdt_start { scenario_world 0 5 5 with timeouts_enabled := false }
      scenario_idle).2 = 0 :=
  have h := wdt_start_disabled_noop { scenario_world 0 5 5 with timeouts_enabled := false }
    scenario_idle (Or.inl rfl)
  ⟨h.1, h.2.2⟩

/-- C9: for a watchdog that is not running, with the timeout policy enabled,
if the unit is not serviceable then `start` leaves the watchdog not running
and leaves deadline and snapshot unchanged; the timer is not initialised and
the probe is not read.  (This holds whether or not the per-unit `enabled`
flag is set.) -/
theorem wdt_start_unserviceable_not_armed (w : World) (s : nvgpu_channel_wdt)
    (hrun : s.running = false) (hpol : w.timeouts_enabled = true)
    (hunserv : w.unserviceable = true) :
    (nvgpu_channel_wdt_start w s).1.running = false ∧
    (nvgpu_channel_wdt_start w s).1.timer = s.timer ∧
    (nvgpu_channel_wdt_start w s).1.gp_get = s.gp_get ∧
    (nvgpu_channel_wdt_start w s).1.pb_get = s.pb_get ∧
    Event.timeout_init ∉ (nvgpu_channel_wdt_start w s).2 ∧
    probe_reads (nvgpu_channel_wdt_start w s).2 = 0 := by
  cases he : s.enabled <;>
    simp [nvgpu_channel_wdt_start, nvgpu_channel_wdt_init, probe_reads, hrun, hpol, hunserv, he]

/-- Starting the idle scenario watchdog on an unserviceable unit leaves it
idle, with its timer and snapshot untouched. -/
theorem wdt_start_unserviceable_not_armed_witness :
    (nvgpu_channel_wdt_start { scenario_world 0 5 5 with unserviceable := true }
      scenario_idle).1.running = false ∧
    (nvgpu_channel_wdt_start { scenario_world 0 5 5 with unserviceable := true }
      scenario_idle).1.timer = scenario_idle.timer :=
  have h := wdt_start_unserviceable_not_armed
    { scenario_world 0 5 5 with unserviceable := true } scenario_idle rfl rfl rfl
  ⟨h.1, h.2.1⟩

/-- C10: for a watchdog that is not running, with the policy enabled (global
and per unit) on a serviceable unit, if `nvgpu_timeout_init` returns non-zero
then after `start` the watchdog is still not running and the snapshot is
unchanged.  `start` is a `void` function: its result is the new state and the
trace only, the failure shows as an error log line and in nothing the caller
receives (apart from `running`, every other policy field is unchanged too). -/
theorem wdt_start_timer_init_fails (w : World) (s : nvgpu_channel_wdt)
    (hrun : s.running = false) (hpol : w.timeouts_enabled = true)
    (hen : s.enabled = true) (hserv : w.unserviceable = false)
    (hinit : w.timeout_init_ret ≠ 0) :
    (nvgpu_channel_wdt_start w s).1.running = false ∧
    (nvgpu_channel_wdt_start w s).1.gp_get = s.gp_get ∧
    (nvgpu_channel_wdt_start w s).1.pb_get = s.pb_get ∧
    (nvgpu_channel_wdt_start w s).1.enabled = s.enabled ∧
    (nvgpu_channel_wdt_start w s).1.limit_ms = s.limit_ms ∧
    (nvgpu_channel_wdt_start w s).1.debug_dump = s.debug_dump ∧
    Event.log_err ∈ (nvgpu_channel_wdt_start w s).2 ∧
    probe_reads (nvgpu_channel_wdt_start w s).2 = 0 := by
  simp [nvgpu_channel_wdt_start, nvgpu_channel_wdt_init, nvgpu_timeout_init, probe_reads,
    hrun, hpol, hen, hserv, hinit]

/-- Starting the idle scenario watchdog while `nvgpu_timeout_init` returns
`-22` leaves it idle with the old snapshot `(0, 0)`. -/
theorem wdt_start_timer_init_fails_witness :
    (nvgpu_channel_wdt_start { scenario_world 0 5 5 with timeout_init_ret := -22 }
      scenario_idle).1.running = false ∧
    (nvgpu_channel_wdt_start { scenario_world 0 5 5 with timeout_init_ret := -22 }
      scenario_idle).1.gp_get = 0 ∧
    (nvgpu_channel_wdt_start { scenario_world 0 5 5 with timeout_init_ret := -22 }
      scenario_idle).1.pb_get = 0 :=
  have h := wdt_start_timer_init_fails { scenario_world 0 5 5 with timeout_init_ret := -22 }
    scenario_idle rfl rfl rfl rfl (by decide)
  ⟨h.1, h.2.1, h.2.2.1⟩

/-! ## `stop`, `continue`, `rewind` -/

/-- C11: `stop` sets `running` to false, returns exactly the value `running`
had before the call and changes no other field; consequently a second
consecutive `stop` returns false and leaves the state unchanged. -/
theorem wdt_stop_returns_previous_running (s : nvgpu_channel_wdt) :
    (nvgpu_channel_wdt_stop s).2.1.running = false ∧
    (nvgpu_channel_wdt_stop s).1 = s.running ∧
    (nvgpu_channel_wdt_stop s).2.1 = { s with running := false } ∧
    (nvgpu_channel_wdt_stop (nvgpu_channel_wdt_stop s).2.1).1 = false ∧
    (nvgpu_channel_wdt_stop (nvgpu_channel_wdt_stop s).2.1).2.1 =
      (nvgpu_channel_wdt_stop s).2.1 := by
  simp [nvgpu_channel_wdt_stop]

/-- C12: `continue` sets `running` to true and leaves deadline, snapshot,
`enabled`, `limit` and `debug_dump` unchanged; it calls neither the timer (the
clock) nor the progress probe: its trace is the lock, the write of `running`
and the unlock only. -/
theorem wdt_continue_sets_running_only (s : nvgpu_channel_wdt) :
    (nvgpu_channel_wdt_continue s).1.running = true ∧
    (nvgpu_channel_wdt_continue s).1.timer = s.timer ∧
    (nvgpu_channel_wdt_continue s).1.gp_get = s.gp_get ∧
    (nvgpu_channel_wdt_continue s).1.pb_get = s.pb_get ∧
    (nvgpu_channel_wdt_continue s).1.enabled = s.enabled ∧
    (nvgpu_channel_wdt_continue s).1.limit_ms = s.limit_ms ∧
    (nvgpu_channel_wdt_continue s).1.debug_dump = s.debug_dump ∧
    probe_reads (nvgpu_channel_wdt_continue s).2 = 0 ∧
    Event.timeout_init ∉ (nvgpu_channel_wdt_continue s).2 ∧
    Event.timeout_peek_expired ∉ (nvgpu_channel_wdt_continue s).2 ∧
    (nvgpu_channel_wdt_continue s).2 =
      [Event.spinlock_acquire, Event.wr WdtField.running, Event.spinlock_release] := by
  simp [nvgpu_channel_wdt_continue, probe_reads]

/-- C13: for a watchdog that is not running, `rewind` is a no-op: every field
of the state is unchanged, whatever the world, so also when the unit is
unserviceable. -/
theorem wdt_rewind_not_running_noop (w : World) (s : nvgpu_channel_wdt)
    (hrun : s.running = false) :
    (nvgpu_channel_wdt_rewind w s).1 = s := by
  simp [nvgpu_channel_wdt_rewind, hrun]

/-- Rewinding the idle scenario watchdog on an unserviceable unit changes
nothing. -/
theorem wdt_rewind_not_running_noop_witness :
    (nvgpu_channel_wdt_rewind { scenario_world 7 5 5 with unserviceable := true }
      scenario_idle).1 = scenario_idle :=
  wdt_rewind_not_running_noop { scenario_world 7 5 5 with unserviceable := true }
    scenario_idle rfl

/-- C14: for a running watchdog, `rewind` produces exactly the state that the
initialisation step of `start` (`nvgpu_channel_wdt_init`) produces from the
same inputs, whatever the `enabled` flag and the global timeout policy; on a
serviceable unit with timer initialisation succeeding that state has
`deadline = now + limit`, snapshot = the probed counters and `running = true`
(the other fields as before), and it is the state `start` itself reaches from
the stopped twin of the state when the policy allows `start` to run.  With
timer initialisation succeeding, `rewind` is the specification's `rewind`
(`spec_rewind`). -/
theorem wdt_rewind_running_is_init (w : World) (s : nvgpu_channel_wdt)
    (hrun : s.running = true) :
    (nvgpu_channel_wdt_rewind w s).1 = (nvgpu_channel_wdt_init w s).1 ∧
    (w.unserviceable = false → w.timeout_init_ret = 0 →
      (nvgpu_channel_wdt_rewind w s).1 =
        { s with timer := { time := w.now + s.limit_ms }, gp_get := w.userd_gp_get,
                 pb_get := w.userd_pb_get, running := true } ∧
      (w.timeouts_enabled = true → s.enabled = true →
        (nvgpu_channel_wdt_rewind w s).1 =
          (nvgpu_channel_wdt_start w { s with running := false }).1)) ∧
    (w.timeout_init_ret = 0 → (nvgpu_channel_wdt_rewind w s).1 = spec_rewind w s) := by
  refine ⟨by simp [nvgpu_channel_wdt_rewind, hrun], ?_, ?_⟩
  swap
  · intro hinit
    cases hu : w.unserviceable <;>
      simp [nvgpu_channel_wdt_rewind, nvgpu_channel_wdt_init, nvgpu_timeout_init, spec_rewind,
        spec_init_step, hrun, hinit, hu]
  intro hserv hinit
  refine ⟨by simp [nvgpu_channel_wdt_rewind, nvgpu_channel_wdt_init, nvgpu_timeout_init,
    hrun, hserv, hinit], ?_⟩
  intro hpol hen
  simp [nvgpu_channel_wdt_rewind, nvgpu_channel_wdt_start, nvgpu_channel_wdt_init,
    nvgpu_timeout_init, hrun, hserv, hinit, hpol, hen]

/-- Rewinding the armed scenario watchdog at `t = 150` with probe `(7, 5)`,
with the global policy off: deadline 250, snapshot `(7, 5)`, still running. -/
theorem wdt_rewind_running_is_init_witness :
    (nvgpu_channel_wdt_rewind { scenario_world 150 7 5 with timeouts_enabled := false }
      scenario_wdt).1 =
      { scenario_wdt with timer := { time := 250 }, gp_get := 7, pb_get := 5 } :=
  ((wdt_rewind_running_is_init { scenario_world 150 7 5 with timeouts_enabled := false }
    scenario_wdt rfl).2.1 rfl rfl).1

/-! ## `restart_all_channels` -/

/-- The slots after the loop are the slots after the loop body, one by one;
the channel id plays no role for the states. -/
theorem restart_all_channels_loop_states (f : List nvgpu_channel) (chid : Nat) :
    (restart_all_channels_loop chid f).1 = f.map (fun c => (restart_all_channels_body 0 c).1) := by
  induction f generalizing chid with
  | nil => simp [restart_all_channels_loop]
  | cons c rest ih =>
    have hb : (restart_all_channels_body chid c).1 = (restart_all_channels_body 0 c).1 := by
      cases hr : c.referenceable <;> cases hu : c.env.unserviceable <;>
        simp [restart_all_channels_body, nvgpu_channel_from_id, hr, hu]
    simp [restart_all_channels_loop, ih, hb]

/-- C15, as stated, fails when timer initialisation fails: a referenceable,
serviceable, running unit whose `nvgpu_timeout_init` returns `-22` is left
unchanged by `restart_all_channels`; its deadline stays 100 (not
`150 + 100`) and its snapshot stays `(5, 5)` (the probe reads `(7, 5)`). -/
theorem wdt_restart_all_channels_init_failure_keeps_state :
    (nvgpu_channel_wdt_restart_all_channels
      [{ referenceable := true, env := { scenario_world 150 7 5 with timeout_init_ret := -22 },
         wdt := scenario_wdt }]).1 =
      [{ referenceable := true, env := { scenario_world 150 7 5 with timeout_init_ret := -22 },
         wdt := scenario_wdt }] ∧
    scenario_wdt.running = true ∧
    ({ scenario_world 150 7 5 with timeout_init_ret := -22 } : World).unserviceable = false ∧
    scenario_wdt.timer.time ≠
      ({ scenario_world 150 7 5 with timeout_init_ret := -22 } : World).now +
        scenario_wdt.limit_ms ∧
    scenario_wdt.gp_get ≠
      ({ scenario_world 150 7 5 with timeout_init_ret := -22 } : World).userd_gp_get := by
  decide

/-- C15 (amended): after `restart_all_channels`, slot by slot: every
referenceable unit that is serviceable and running and whose timer
initialisation succeeds has `deadline = now + limit` and snapshot = its
currently probed counters; every unit that is not running, unserviceable or
not referenceable has an unchanged watchdog state; the `running` flag of no
unit changes; and the result does not depend on the iteration order
(permuting the table permutes the result). -/
theorem wdt_restart_all_channels_effect (f : List nvgpu_channel) :
    List.Forall₂ (fun c c' =>
      c'.referenceable = c.referenceable ∧ c'.env = c.env ∧
      c'.wdt.running = c.wdt.running ∧
      (c.referenceable = true → c.env.unserviceable = false → c.wdt.running = true →
        c.env.timeout_init_ret = 0 →
          c'.wdt.timer.time = c.env.now + c.wdt.limit_ms ∧
          c'.wdt.gp_get = c.env.userd_gp_get ∧ c'.wdt.pb_get = c.env.userd_pb_get) ∧
      (¬ (c.referenceable = true ∧ c.env.unserviceable = false ∧ c.wdt.running = true) →
        c'.wdt = c.wdt))
      f (nvgpu_channel_wdt_restart_all_channels f).1 ∧
    ∀ f', f.Perm f' →
      (nvgpu_channel_wdt_restart_all_channels f).1.Perm
        (nvgpu_channel_wdt_restart_all_channels f').1 := by
  constructor
  · rw [nvgpu_channel_wdt_restart_all_channels, restart_all_channels_loop_states,
      List.forall₂_map_right_iff, List.forall₂_same]
    intro c _
    cases hr : c.referenceable <;> cases hu : c.env.unserviceable <;>
      cases hrun : c.wdt.running <;> by_cases hi : c.env.timeout_init_ret = 0 <;>
      simp [restart_all_channels_body, nvgpu_channel_from_id, nvgpu_channel_wdt_rewind,
        nvgpu_channel_wdt_init, nvgpu_timeout_init, hr, hu, hrun, hi]
  · intro f' hp
    simp only [nvgpu_channel_wdt_restart_all_channels, restart_all_channels_loop_states]
    exact hp.map _

/-- Scenario D of the specification: in the walk at `t = 150` only the
running, serviceable unit changes (deadline 250, snapshot `(7, 5)`), and
walking the table in reverse order gives the same units. -/
theorem wdt_restart_all_channels_effect_witness :
    (nvgpu_channel_wdt_restart_all_channels scenario_group).1.map (fun c => c.wdt) =
      [{ scenario_wdt with timer := { time := 250 }, gp_get := 7, pb_get := 5 },
        scenario_idle, scenario_wdt, scenario_wdt] ∧
    (nvgpu_channel_wdt_restart_all_channels scenario_group).1.Perm
      (nvgpu_channel_wdt_restart_all_channels scenario_group.reverse).1 :=
  ⟨by decide, (wdt_restart_all_channels_effect scenario_group).2 scenario_group.reverse
    (List.reverse_perm scenario_group).symm⟩

/-! ## Executions after `stop`, and at the timeout decision -/

/-- On a watchdog that is not running, each of `check`, `rewind` and the
unit's share of `restart_all_channels` leaves the state as it is and calls no
recovery. -/
theorem wdt_step_not_running (cfg : BuildConfig) (op : Op) (s : nvgpu_channel_wdt)
    (hrun : s.running = false) (hop : op.is_check_or_rewind = true) :
    (wdt_step cfg op s).2.1 = s ∧ force_resets (wdt_step cfg op s).2.2 = [] := by
  cases op with
  | wdt_start w => simp [Op.is_check_or_rewind] at hop
  | wdt_stop => simp [Op.is_check_or_rewind] at hop
  | wdt_continue => simp [Op.is_check_or_rewind] at hop
  | wdt_rewind w => simp [wdt_step, nvgpu_channel_wdt_rewind, force_resets, hrun]
  | wdt_restart_all r w =>
    cases r <;> cases hu : w.unserviceable <;>
      simp [wdt_step, restart_all_channels_body, nvgpu_channel_from_id,
        nvgpu_channel_wdt_rewind, channel_events, force_resets, hrun, hu]
  | wdt_check w => simp [wdt_step, nvgpu_channel_wdt_check, force_resets, hrun]

/-- From a watchdog that is not running, every sequence of `check`, `rewind`
and `rewind_all` operations keeps the state and calls no recovery. -/
theorem wdt_run_not_running (cfg : BuildConfig) (ops : List Op) (s : nvgpu_channel_wdt)
    (h : History) (hrun : s.running = false)
    (hops : ∀ op ∈ ops, op.is_check_or_rewind = true) :
    (wdt_run cfg ops s h).1 = s ∧ recoveries (wdt_run cfg ops s h).2 = [] ∧
    ∀ st ∈ (wdt_run cfg ops s h).2, st.state_after = s := by
  induction ops generalizing h with
  | nil => simp [wdt_run, recoveries]
  | cons op ops ih =>
    have hstep := wdt_step_not_running cfg op s hrun (hops op (List.mem_cons_self _ _))
    have hrest := ih (h.after op (wdt_step cfg op s).2.2)
      (fun o ho => hops o (List.mem_cons_of_mem _ ho))
    simp only [recoveries] at hrest ⊢
    simp only [wdt_run, hstep.1, List.map_cons, List.flatten_cons, hstep.2, List.nil_append,
      List.mem_cons, forall_eq_or_imp]
    exact ⟨hrest.1, hrest.2.1, trivial, hrest.2.2⟩

/-- C16: after `stop`, for every finite sequence of `check`, `rewind` and
`rewind_all` operations (no `start` or `continue` in between), at any times
and with any probe values, the recovery action is never invoked and the
watchdog state stays equal to the state right after `stop`, after every step
and at the end. -/
theorem wdt_stop_cancels (cfg : BuildConfig) (s : nvgpu_channel_wdt) (ops : List Op)
    (hops : ∀ op ∈ ops, op.is_check_or_rewind = true) :
    recoveries (wdt_run cfg ops (nvgpu_channel_wdt_stop s).2.1 History.none).2 = [] ∧
    (wdt_run cfg ops (nvgpu_channel_wdt_stop s).2.1 History.none).1 =
      (nvgpu_channel_wdt_stop s).2.1 ∧
    ∀ st ∈ (wdt_run cfg ops (nvgpu_channel_wdt_stop s).2.1 History.none).2,
      st.state_after = (nvgpu_channel_wdt_stop s).2.1 := by
  have h := wdt_run_not_running cfg ops (nvgpu_channel_wdt_stop s).2.1 History.none
    (by simp [nvgpu_channel_wdt_stop]) hops
  exact ⟨h.2.1, h.1, h.2.2⟩

/-- Scenario C extended: the armed scenario watchdog is stopped; a check at
`t = 150` without progress, a rewind, a group rewind and a check with
progress at `t = 300` recover nothing and leave the stopped state. -/
theorem wdt_stop_cancels_witness :
    recoveries (wdt_run { CONFIG_NVGPU_CHANNEL_TSG_CONTROL := true }
      [Op.wdt_check (scenario_world 150 5 5), Op.wdt_rewind (scenario_world 160 5 5),
        Op.wdt_restart_all true (scenario_world 170 6 5), Op.wdt_check (scenario_world 300 7 5)]
      (nvgpu_channel_wdt_stop scenario_wdt).2.1 History.none).2 = [] ∧
    (wdt_run { CONFIG_NVGPU_CHANNEL_TSG_CONTROL := true }
      [Op.wdt_check (scenario_world 150 5 5), Op.wdt_rewind (scenario_world 160 5 5),
        Op.wdt_restart_all true (scenario_world 170 6 5), Op.wdt_check (scenario_world 300 7 5)]
      (nvgpu_channel_wdt_stop scenario_wdt).2.1 History.none).1 =
      (nvgpu_channel_wdt_stop scenario_wdt).2.1 :=
  have h := wdt_stop_cancels { CONFIG_NVGPU_CHANNEL_TSG_CONTROL := true } scenario_wdt
    [Op.wdt_check (scenario_world 150 5 5), Op.wdt_rewind (scenario_world 160 5 5),
      Op.wdt_restart_all true (scenario_world 170 6 5), Op.wdt_check (scenario_world 300 7 5)]
    (by decide)
  ⟨h.1, h.2.1⟩

/-- A check that reaches the timeout decision in a build with the tsg control
leaves the state as it is, calls the force reset once (idle-timeout code, the
`debug_dump` flag as `verbose`) and does not touch the timer. -/
theorem wdt_check_timeout_decision (cfg : BuildConfig) (w : World) (s : nvgpu_channel_wdt)
    (hcfg : cfg.CONFIG_NVGPU_CHANNEL_TSG_CONTROL = true)
    (hrun : s.running = true) (hserv : w.unserviceable = false)
    (hgp : w.userd_gp_get = s.gp_get) (hpb : w.userd_pb_get = s.pb_get)
    (hexp : s.timer.time ≤ w.now) :
    (nvgpu_channel_wdt_check cfg w s).1 = s ∧
    force_resets (nvgpu_channel_wdt_check cfg w s).2 =
      [(ErrNotifier.NVGPU_ERR_NOTIFIER_FIFO_ERROR_IDLE_TIMEOUT, s.debug_dump)] ∧
    Event.timeout_init ∉ (nvgpu_channel_wdt_check cfg w s).2 := by
  cases hd : s.debug_dump <;> by_cases hr : w.force_reset_ret = 0 <;>
    simp [nvgpu_channel_wdt_check, nvgpu_channel_wdt_handler, nvgpu_timeout_peek_expired,
      force_resets, hcfg, hrun, hserv, hgp, hpb, hexp, hd, hr]

/-- C17, as stated, fails: two consecutive checks of the armed scenario
watchdog at `t = 150` and `t = 160`, the unit serviceable and the probe still
at the snapshot `(5, 5)`, with nothing in between, invoke the recovery action
twice (the first check leaves `running` and the timer as they were). -/
theorem wdt_two_expired_checks_recover_twice :
    scenario_wdt.running = true ∧ scenario_wdt.timer.time ≤ 150 ∧
    (scenario_world 150 5 5).unserviceable = false ∧
    (scenario_world 160 5 5).unserviceable = false ∧
    (scenario_world 150 5 5).userd_gp_get = scenario_wdt.gp_get ∧
    (scenario_world 150 5 5).userd_pb_get = scenario_wdt.pb_get ∧
    (scenario_world 160 5 5).userd_gp_get = scenario_wdt.gp_get ∧
    (scenario_world 160 5 5).userd_pb_get = scenario_wdt.pb_get ∧
    (recoveries (wdt_run { CONFIG_NVGPU_CHANNEL_TSG_CONTROL := true }
      [Op.wdt_check (scenario_world 150 5 5), Op.wdt_check (scenario_world 160 5 5)]
      scenario_wdt History.none).2).length = 2 := by
  decide

/-- C17 (amended): in a build with `CONFIG_NVGPU_CHANNEL_TSG_CONTROL`, for a
running watchdog whose deadline has elapsed with unchanged counters, over any
number `n` of consecutive `check` calls with nothing in between, during which
the unit stays serviceable and the counters stay unchanged, every one of the
checks invokes the recovery action once with the idle-timeout code: `n`
invocations in total, and the watchdog state never changes. -/
theorem wdt_expired_checks_recover_each_time (cfg : BuildConfig) (s : nvgpu_channel_wdt)
    (h : History) (ws : List World)
    (hcfg : cfg.CONFIG_NVGPU_CHANNEL_TSG_CONTROL = true) (hrun : s.running = true)
    (hws : ∀ w ∈ ws, w.unserviceable = false ∧ w.userd_gp_get = s.gp_get ∧
      w.userd_pb_get = s.pb_get ∧ s.timer.time ≤ w.now) :
    (recoveries (wdt_run cfg (ws.map Op.wdt_check) s h).2).map Prod.fst =
      List.replicate ws.length ErrNotifier.NVGPU_ERR_NOTIFIER_FIFO_ERROR_IDLE_TIMEOUT ∧
    (∀ st ∈ (wdt_run cfg (ws.map Op.wdt_check) s h).2, (force_resets st.events).length = 1) ∧
    (wdt_run cfg (ws.map Op.wdt_check) s h).1 = s := by
  induction ws generalizing h with
  | nil => simp [wdt_run, recoveries]
  | cons w ws ih =>
    obtain ⟨hserv, hgp, hpb, hexp⟩ := hws w (List.mem_cons_self _ _)
    have hstep := wdt_check_timeout_decision cfg w s hcfg hrun hserv hgp hpb hexp
    have hrest := ih (h.after (Op.wdt_check w) (nvgpu_channel_wdt_check cfg w s).2)
      (fun v hv => hws v (List.mem_cons_of_mem _ hv))
    simp only [recoveries] at hrest ⊢
    simp only [List.map_cons, wdt_run, wdt_step, hstep.1, hstep.2.1, List.flatten_cons,
      List.singleton_append, List.length_cons, List.replicate_succ, List.mem_cons,
      forall_eq_or_imp, List.length_singleton, List.length_nil]
    exact ⟨by rw [hrest.1], ⟨trivial, hrest.2.1⟩, hrest.2.2⟩

/-- Three checks of the armed scenario watchdog at `t = 150, 160, 170` without
progress: three recoveries. -/
theorem wdt_expired_checks_recover_each_time_witness :
    (recoveries (wdt_run { CONFIG_NVGPU_CHANNEL_TSG_CONTROL := true }
      ([scenario_world 150 5 5, scenario_world 160 5 5, scenario_world 170 5 5].map Op.wdt_check)
      scenario_wdt History.none).2).map Prod.fst =
      List.replicate 3 ErrNotifier.NVGPU_ERR_NOTIFIER_FIFO_ERROR_IDLE_TIMEOUT :=
  (wdt_expired_checks_recover_each_time { CONFIG_NVGPU_CHANNEL_TSG_CONTROL := true }
    scenario_wdt History.none
    [scenario_world 150 5 5, scenario_world 160 5 5, scenario_world 170 5 5] rfl rfl
    (by decide)).1

/-- C18, as stated, fails in a build without `CONFIG_NVGPU_CHANNEL_TSG_CONTROL`:
a check of the armed scenario watchdog at `t = 200` that reaches the timeout
decision calls the recovery action not once but never. -/
theorem wdt_check_timeout_decision_without_tsg_control :
    scenario_wdt.running = true ∧ (scenario_world 200 5 5).unserviceable = false ∧
    (scenario_world 200 5 5).userd_gp_get = scenario_wdt.gp_get ∧
    (scenario_world 200 5 5).userd_pb_get = scenario_wdt.pb_get ∧
    scenario_wdt.timer.time ≤ (scenario_world 200 5 5).now ∧
    (force_resets (nvgpu_channel_wdt_check { CONFIG_NVGPU_CHANNEL_TSG_CONTROL := false }
      { scenario_world 200 5 5 with force_reset_ret := -1 } scenario_wdt).2).length = 0 := by
  decide

/-- C18 (amended): in a build with `CONFIG_NVGPU_CHANNEL_TSG_CONTROL`, for every
check that reaches the timeout decision (running, serviceable, counters
unchanged, deadline elapsed), the resulting watchdog state is the same
whatever status the recovery action returns, and equals the state before the
check (the timer is not initialised again: no re-arm); the recovery action is
called once in that check, whether it succeeds or fails.  `check` is a `void`
function: a failed recovery only adds an error log line. -/
theorem wdt_check_recovery_failure_not_retried (cfg : BuildConfig) (w : World)
    (s : nvgpu_channel_wdt) (ret : Int)
    (hcfg : cfg.CONFIG_NVGPU_CHANNEL_TSG_CONTROL = true)
    (hrun : s.running = true) (hserv : w.unserviceable = false)
    (hgp : w.userd_gp_get = s.gp_get) (hpb : w.userd_pb_get = s.pb_get)
    (hexp : s.timer.time ≤ w.now) :
    (nvgpu_channel_wdt_check cfg { w with force_reset_ret := ret } s).1 = s ∧
    (nvgpu_channel_wdt_check cfg { w with force_reset_ret := ret } s).1 =
      (nvgpu_channel_wdt_check cfg { w with force_reset_ret := 0 } s).1 ∧
    (force_resets (nvgpu_channel_wdt_check cfg { w with force_reset_ret := ret } s).2).length
      = 1 ∧
    Event.timeout_init ∉ (nvgpu_channel_wdt_check cfg { w with force_reset_ret := ret } s).2 := by
  have h1 := wdt_check_timeout_decision cfg { w with force_reset_ret := ret } s hcfg hrun
    hserv hgp hpb hexp
  have h0 := wdt_check_timeout_decision cfg { w with force_reset_ret := 0 } s hcfg hrun
    hserv hgp hpb hexp
  refine ⟨h1.1, by rw [h1.1, h0.1], by rw [h1.2.1]; rfl, h1.2.2⟩

/-- A check of the armed scenario watchdog at `t = 200` whose force reset
fails with `-1`: state unchanged, one recovery call. -/
theorem wdt_check_recovery_failure_not_retried_witness :
    (nvgpu_channel_wdt_check { CONFIG_NVGPU_CHANNEL_TSG_CONTROL := true }
      { scenario_world 200 5 5 with force_reset_ret := -1 } scenario_wdt).1 = scenario_wdt ∧
    (force_resets (nvgpu_channel_wdt_check { CONFIG_NVGPU_CHANNEL_TSG_CONTROL := true }
      { scenario_world 200 5 5 with force_reset_ret := -1 } scenario_wdt).2).length = 1 :=
  have h := wdt_check_recovery_failure_not_retried { CONFIG_NVGPU_CHANNEL_TSG_CONTROL := true }
    (scenario_world 200 5 5) scenario_wdt (-1) rfl rfl rfl rfl rfl (by decide)
  ⟨h.1, h.2.2.1⟩

/-! ## Sequences of `start` and `stop` -/

/-- Balance of a `start`/`stop` sequence from any enabled state: the final
`running` plus the stops that returned true equals the initial `running` plus
the starts made while not running; every stop returns the `running` it found,
and every start made while not running arms the watchdog. -/
theorem wdt_run_start_stop_balance (cfg : BuildConfig) (ops : List Op)
    (s : nvgpu_channel_wdt) (h : History) (hen : s.enabled = true)
    (hops : ∀ op ∈ ops, op.is_stop_or_able_start = true) :
    (wdt_run cfg ops s h).1.running.toNat + stops_returning_true (wdt_run cfg ops s h).2 =
      s.running.toNat + arming_starts (wdt_run cfg ops s h).2 ∧
    (∀ st ∈ (wdt_run cfg ops s h).2, st.op = Op.wdt_stop →
      st.ret = some st.state_before.running ∧ st.state_after.running = false) ∧
    (∀ st ∈ (wdt_run cfg ops s h).2, st.op.is_start = true →
      st.state_before.running = false → st.state_after.running = true) := by
  induction ops generalizing s h with
  | nil => simp [wdt_run, stops_returning_true, arming_starts]
  | cons op ops ih =>
    have hop := hops op (List.mem_cons_self _ _)
    have hrest := fun s1 h1 hen1 => ih s1 h1 hen1 (fun o ho => hops o (List.mem_cons_of_mem _ ho))
    cases op with
    | wdt_stop =>
      have hr := hrest { s with running := false } h hen
      simp only [stops_returning_true, arming_starts] at hr ⊢
      cases hrun : s.running
      · simp_all [wdt_run, wdt_step, nvgpu_channel_wdt_stop, History.after, Op.world,
          Op.is_start, List.countP_cons]
      · simp_all [wdt_run, wdt_step, nvgpu_channel_wdt_stop, History.after, Op.world,
          Op.is_start, List.countP_cons]
        omega
    | wdt_start w =>
      simp only [Op.is_stop_or_able_start, Bool.and_eq_true, Bool.not_eq_true',
        decide_eq_true_eq] at hop
      obtain ⟨⟨hpol, hserv⟩, hinit⟩ := hop
      cases hrun : s.running
      · have hs : (nvgpu_channel_wdt_start w s).1 =
            { s with timer := { time := w.now + s.limit_ms }, gp_get := w.userd_gp_get,
                     pb_get := w.userd_pb_get, running := true } := by
          simp [nvgpu_channel_wdt_start, nvgpu_channel_wdt_init, nvgpu_timeout_init, hrun,
            hpol, hserv, hinit, hen]
        have hr := hrest (nvgpu_channel_wdt_start w s).1
          (h.after (Op.wdt_start w) (nvgpu_channel_wdt_start w s).2) (by rw [hs]; exact hen)
        simp only [stops_returning_true, arming_starts] at hr ⊢
        simp only [wdt_run, wdt_step, List.countP_cons, List.mem_cons, forall_eq_or_imp]
        rw [hs] at hr ⊢
        simp_all [Op.is_start]
        omega
      · have hs : (nvgpu_channel_wdt_start w s).1 = s := by
          simp [nvgpu_channel_wdt_start, hrun, hpol, hen]
        have hr := hrest (nvgpu_channel_wdt_start w s).1
          (h.after (Op.wdt_start w) (nvgpu_channel_wdt_start w s).2) (by rw [hs]; exact hen)
        simp only [stops_returning_true, arming_starts] at hr ⊢
        simp only [wdt_run, wdt_step, List.countP_cons, List.mem_cons, forall_eq_or_imp]
        rw [hs] at hr ⊢
        simp_all [Op.is_start]
    | wdt_continue => simp [Op.is_stop_or_able_start] at hop
    | wdt_rewind w => simp [Op.is_stop_or_able_start] at hop
    | wdt_restart_all r w => simp [Op.is_stop_or_able_start] at hop
    | wdt_check w => simp [Op.is_stop_or_able_start] at hop

/-- C19, as stated, fails: two `start` calls on the idle scenario watchdog
(policy enabled, unit serviceable, timer initialisation succeeding) and no
`stop` leave it running, while the number of `start` calls minus the number
of `stop` calls that returned true is 2, which is even. -/
theorem wdt_two_starts_running_with_even_difference :
    scenario_idle.running = false ∧ scenario_idle.enabled = true ∧
    (∀ op ∈ [Op.wdt_start (scenario_world 0 5 5), Op.wdt_start (scenario_world 10 5 5)],
      op.is_stop_or_able_start = true) ∧
    (wdt_run { CONFIG_NVGPU_CHANNEL_TSG_CONTROL := true }
      [Op.wdt_start (scenario_world 0 5 5), Op.wdt_start (scenario_world 10 5 5)]
      scenario_idle History.none).1.running = true ∧
    (start_calls (wdt_run { CONFIG_NVGPU_CHANNEL_TSG_CONTROL := true }
      [Op.wdt_start (scenario_world 0 5 5), Op.wdt_start (scenario_world 10 5 5)]
      scenario_idle History.none).2 -
     stops_returning_true (wdt_run { CONFIG_NVGPU_CHANNEL_TSG_CONTROL := true }
      [Op.wdt_start (scenario_world 0 5 5), Op.wdt_start (scenario_world 10 5 5)]
      scenario_idle History.none).2) % 2 = 0 := by
  decide

/-- C19 (amended): for every finite sequence of `start` and `stop` calls
applied to a not-running watchdog (policy enabled globally and per unit, unit
serviceable, timer initialisation succeeding), counting only the `start`
calls made while the watchdog was not running: that number minus the number
of `stop` calls that returned true is 0 or 1, `running` afterwards is true
exactly when it is odd (that is, 1), and each `stop` returns true exactly when
it performs the transition from running to not-running. -/
theorem wdt_start_stop_running_parity (cfg : BuildConfig) (ops : List Op)
    (s : nvgpu_channel_wdt) (hrun : s.running = false) (hen : s.enabled = true)
    (hops : ∀ op ∈ ops, op.is_stop_or_able_start = true) :
    stops_returning_true (wdt_run cfg ops s History.none).2 ≤
      arming_starts (wdt_run cfg ops s History.none).2 ∧
    arming_starts (wdt_run cfg ops s History.none).2 -
      stops_returning_true (wdt_run cfg ops s History.none).2 ≤ 1 ∧
    ((wdt_run cfg ops s History.none).1.running = true ↔
      (arming_starts (wdt_run cfg ops s History.none).2 -
        stops_returning_true (wdt_run cfg ops s History.none).2) % 2 = 1) ∧
    (∀ st ∈ (wdt_run cfg ops s History.none).2, st.op = Op.wdt_stop →
      (st.ret = some true ↔
        st.state_before.running = true ∧ st.state_after.running = false)) := by
  obtain ⟨hbal, hstop, _⟩ := wdt_run_start_stop_balance cfg ops s History.none hen hops
  rw [hrun] at hbal
  refine ⟨?_, ?_, ?_, ?_⟩
  · cases hf : (wdt_run cfg ops s History.none).1.running <;> simp [hf] at hbal <;> omega
  · cases hf : (wdt_run cfg ops s History.none).1.running <;> simp [hf] at hbal <;> omega
  · cases hf : (wdt_run cfg ops s History.none).1.running <;> simp [hf] at hbal ⊢ <;> omega
  · intro st hst hop
    obtain ⟨hret, hafter⟩ := hstop st hst hop
    rw [hret, hafter]
    simp

/-- The sequence start, start, stop, stop, start on the idle scenario
watchdog: two arming starts, one stop that returned true, running at the end. -/
theorem wdt_start_stop_running_parity_witness :
    arming_starts (wdt_run { CONFIG_NVGPU_CHANNEL_TSG_CONTROL := true }
      [Op.wdt_start (scenario_world 0 5 5), Op.wdt_start (scenario_world 10 5 5), Op.wdt_stop,
        Op.wdt_stop, Op.wdt_start (scenario_world 40 6 6)] scenario_idle History.none).2 = 2 ∧
    stops_returning_true (wdt_run { CONFIG_NVGPU_CHANNEL_TSG_CONTROL := true }
      [Op.wdt_start (scenario_world 0 5 5), Op.wdt_start (scenario_world 10 5 5), Op.wdt_stop,
        Op.wdt_stop, Op.wdt_start (scenario_world 40 6 6)] scenario_idle History.none).2 = 1 ∧
    ((wdt_run { CONFIG_NVGPU_CHANNEL_TSG_CONTROL := true }
      [Op.wdt_start (scenario_world 0 5 5), Op.wdt_start (scenario_world 10 5 5), Op.wdt_stop,
        Op.wdt_stop, Op.wdt_start (scenario_world 40 6 6)] scenario_idle
      History.none).1.running = true ↔
      (arming_starts (wdt_run { CONFIG_NVGPU_CHANNEL_TSG_CONTROL := true }
        [Op.wdt_start (scenario_world 0 5 5), Op.wdt_start (scenario_world 10 5 5), Op.wdt_stop,
          Op.wdt_stop, Op.wdt_start (scenario_world 40 6 6)] scenario_idle History.none).2 -
       stops_returning_true (wdt_run { CONFIG_NVGPU_CHANNEL_TSG_CONTROL := true }
        [Op.wdt_start (scenario_world 0 5 5), Op.wdt_start (scenario_world 10 5 5), Op.wdt_stop,
          Op.wdt_stop, Op.wdt_start (scenario_world 40 6 6)] scenario_idle History.none).2)
        % 2 = 1) :=
  ⟨by decide, by decide,
    (wdt_start_stop_running_parity { CONFIG_NVGPU_CHANNEL_TSG_CONTROL := true }
      [Op.wdt_start (scenario_world 0 5 5), Op.wdt_start (scenario_world 10 5 5), Op.wdt_stop,
        Op.wdt_stop, Op.wdt_start (scenario_world 40 6 6)] scenario_idle rfl rfl
      (by decide)).2.2.1⟩

/-! ## No recovery before the limit -/

/-- Every operation keeps the state in agreement with the history, provided a
`continue` comes only after a `start` has armed the timer. -/
theorem wdt_step_keeps_history (cfg : BuildConfig) (op : Op) (s : nvgpu_channel_wdt)
    (h : History) (L : Nat) (hinv : history_agrees L s h)
    (hcont : op = Op.wdt_continue → h.started = true) :
    history_agrees L (wdt_step cfg op s).2.1 (h.after op (wdt_step cfg op s).2.2) := by
  obtain ⟨hL, hrunI, hst, hrec⟩ := hinv
  cases op with
  | wdt_stop =>
    simp only [wdt_step, nvgpu_channel_wdt_stop, History.after, Op.world]
    exact ⟨hL, by simp, hst, hrec⟩
  | wdt_continue =>
    simp only [wdt_step, nvgpu_channel_wdt_continue, History.after, Op.world]
    exact ⟨hL, fun _ => hst (hcont rfl), hst, hrec⟩
  | wdt_start w =>
    cases hp : w.timeouts_enabled <;> cases he : s.enabled <;> cases hr : s.running <;>
      cases hu : w.unserviceable <;> by_cases hi : w.timeout_init_ret = 0 <;>
      simp_all [history_agrees, wdt_step, nvgpu_channel_wdt_start, nvgpu_channel_wdt_init,
        nvgpu_timeout_init, History.after, Op.world, timer_initialised, Op.is_start]
  | wdt_rewind w =>
    cases hr : s.running <;> cases hu : w.unserviceable <;>
      by_cases hi : w.timeout_init_ret = 0 <;>
      simp_all [history_agrees, wdt_step, nvgpu_channel_wdt_rewind, nvgpu_channel_wdt_init,
        nvgpu_timeout_init, History.after, Op.world, timer_initialised, Op.is_start]
  | wdt_restart_all r w =>
    cases r <;> cases hr : s.running <;> cases hu : w.unserviceable <;>
      by_cases hi : w.timeout_init_ret = 0 <;>
      simp_all [history_agrees, wdt_step, restart_all_channels_body, nvgpu_channel_from_id,
        channel_events, nvgpu_channel_wdt_rewind, nvgpu_channel_wdt_init,
        nvgpu_timeout_init, History.after, Op.world, timer_initialised, Op.is_start]
  | wdt_check w =>
    cases hr : s.running
    · simp_all [history_agrees, wdt_step, nvgpu_channel_wdt_check, History.after, Op.world,
        timer_initialised]
    · cases hu : w.unserviceable
      · by_cases hprog : w.userd_gp_get ≠ s.gp_get ∨ w.userd_pb_get ≠ s.pb_get
        · by_cases hi : w.timeout_init_ret = 0
          · have hstate : (nvgpu_channel_wdt_check cfg w s).1 =
                { s with timer := { time := w.now + s.limit_ms }, gp_get := w.userd_gp_get,
                         pb_get := w.userd_pb_get, running := true } := by
              simp [nvgpu_channel_wdt_check, nvgpu_channel_wdt_handler,
                nvgpu_channel_wdt_rewind, nvgpu_channel_wdt_init, nvgpu_timeout_init,
                hr, hu, hprog, hi]
            have htrace : (nvgpu_channel_wdt_check cfg w s).2.contains Event.timeout_init
                = true := by
              simp [nvgpu_channel_wdt_check, nvgpu_channel_wdt_handler,
                nvgpu_channel_wdt_rewind, nvgpu_channel_wdt_init, nvgpu_timeout_init,
                hr, hu, hprog, hi]
            simp only [wdt_step, History.after, Op.world, timer_initialised, hstate, htrace,
              hi, decide_True, Bool.and_self, if_true]
            simp [history_agrees, hL]
          · have hstate : (nvgpu_channel_wdt_check cfg w s).1 = s := by
              simp [nvgpu_channel_wdt_check, nvgpu_channel_wdt_handler,
                nvgpu_channel_wdt_rewind, nvgpu_channel_wdt_init, nvgpu_timeout_init,
                hr, hu, hprog, hi]
              cases s
              simp_all
            simp only [wdt_step, History.after, Op.world, timer_initialised, hstate, hi,
              decide_False, Bool.and_false, Bool.false_eq_true, if_false]
            exact ⟨hL, hrunI, hst, hrec⟩
        · have hstate : (nvgpu_channel_wdt_check cfg w s).1 = s := by
            by_cases hx : s.timer.time ≤ w.now <;>
              simp [nvgpu_channel_wdt_check, nvgpu_channel_wdt_handler,
                nvgpu_timeout_peek_expired, hr, hu, hprog, hx]
          have htrace : (nvgpu_channel_wdt_check cfg w s).2.contains Event.timeout_init
              = false := by
            by_cases hx : s.timer.time ≤ w.now <;> cases hd : s.debug_dump <;>
              cases hc : cfg.CONFIG_NVGPU_CHANNEL_TSG_CONTROL <;>
              by_cases hf : w.force_reset_ret = 0 <;>
              simp [nvgpu_channel_wdt_check, nvgpu_channel_wdt_handler,
                nvgpu_timeout_peek_expired, hr, hu, hprog, hx, hd, hc, hf]
          simp only [wdt_step, History.after, Op.world, timer_initialised, hstate, htrace,
            Bool.false_and, Bool.false_eq_true, if_false]
          exact ⟨hL, hrunI, hst, hrec⟩
      · simp_all [history_agrees, wdt_step, nvgpu_channel_wdt_check, nvgpu_channel_wdt_handler,
          nvgpu_channel_wdt_stop, History.after, Op.world, timer_initialised]

/-- A check calls the force reset only from the timeout decision: the
watchdog is running, the unit serviceable, the probe equals the snapshot and
the timer has expired. -/
theorem wdt_check_recovery_only_at_decision (cfg : BuildConfig) (w : World)
    (s : nvgpu_channel_wdt) (hrec : force_resets (nvgpu_channel_wdt_check cfg w s).2 ≠ []) :
    s.running = true ∧ w.unserviceable = false ∧ w.userd_gp_get = s.gp_get ∧
    w.userd_pb_get = s.pb_get ∧ s.timer.time ≤ w.now := by
  cases hr : s.running
  · simp [nvgpu_channel_wdt_check, force_resets, hr] at hrec
  · cases hu : w.unserviceable
    · by_cases hprog : w.userd_gp_get ≠ s.gp_get ∨ w.userd_pb_get ≠ s.pb_get
      · exfalso
        apply hrec
        by_cases hi : w.timeout_init_ret = 0 <;>
          simp [nvgpu_channel_wdt_check, nvgpu_channel_wdt_handler, nvgpu_channel_wdt_rewind,
            nvgpu_channel_wdt_init, nvgpu_timeout_init, force_resets, hr, hprog, hi, hu]
      · by_cases hx : s.timer.time ≤ w.now
        · simp only [ne_eq, not_or, not_not] at hprog
          exact ⟨rfl, rfl, hprog.1, hprog.2, hx⟩
        · exfalso
          apply hrec
          simp [nvgpu_channel_wdt_check, nvgpu_channel_wdt_handler,
            nvgpu_timeout_peek_expired, force_resets, hr, hu, hprog, hx]
    · exfalso
      apply hrec
      simp [nvgpu_channel_wdt_check, nvgpu_channel_wdt_handler, nvgpu_channel_wdt_stop,
        force_resets, hr, hu]

/-- In an execution that starts in agreement with its history and in which
every `continue` comes after a `start` that armed the timer, a check that
invokes the recovery does so no earlier than the most recent successful timer
initialisation plus the limit, with the probe at the counters captured then. -/
theorem wdt_run_recovery_after_limit (cfg : BuildConfig) (ops : List Op)
    (s : nvgpu_channel_wdt) (h : History) (L : Nat) (hinv : history_agrees L s h)
    (hwf : ∀ st ∈ (wdt_run cfg ops s h).2, st.op = Op.wdt_continue →
      st.history.started = true) :
    ∀ st ∈ (wdt_run cfg ops s h).2, ∀ w, st.op = Op.wdt_check w →
      force_resets st.events ≠ [] →
      ∃ r, st.history.last_init = some r ∧ r.t_init + L ≤ w.now ∧
        w.userd_gp_get = r.gp_get ∧ w.userd_pb_get = r.pb_get := by
  induction ops generalizing s h with
  | nil => simp [wdt_run]
  | cons op ops ih =>
    simp only [wdt_run, List.mem_cons, forall_eq_or_imp] at hwf ⊢
    obtain ⟨hwf0, hwfrest⟩ := hwf
    refine ⟨?_, ih _ _ (wdt_step_keeps_history cfg op s h L hinv hwf0) hwfrest⟩
    intro w hop hrecov
    have hop2 : op = Op.wdt_check w := hop
    subst hop2
    have hrecov2 : force_resets (nvgpu_channel_wdt_check cfg w s).2 ≠ [] := hrecov
    obtain ⟨hrun, _, hgp, hpb, hx⟩ := wdt_check_recovery_only_at_decision cfg w s hrecov2
    obtain ⟨hL, hrunI, _, hrec⟩ := hinv
    cases hl : h.last_init with
    | none => exact absurd hl (hrunI hrun)
    | some r =>
      obtain ⟨ht, hg, hb⟩ := hrec r hl
      exact ⟨r, rfl, by omega, by omega, by omega⟩

/-- C20: in every execution that begins with a not-running watchdog and
consists of `start`, `stop`, `continue`, `rewind`, `rewind_all` and `check`
calls (at any times, so also at non-decreasing ones), in which a `continue`
comes only after a `start` that armed the timer, whenever a check invokes the
recovery action at time `t = w.now`, then `t >= t_init + limit`, where `t_init`
is the time of the most recent successful timer (re)initialisation, and the
counters probed at `t` equal those captured at `t_init`. -/
theorem wdt_recovery_not_before_limit (cfg : BuildConfig) (ops : List Op)
    (s : nvgpu_channel_wdt) (hrun : s.running = false)
    (hwf : ∀ st ∈ (wdt_run cfg ops s History.none).2, st.op = Op.wdt_continue →
      st.history.started = true) :
    ∀ st ∈ (wdt_run cfg ops s History.none).2, ∀ w, st.op = Op.wdt_check w →
      force_resets st.events ≠ [] →
      ∃ r, st.history.last_init = some r ∧ r.t_init + s.limit_ms ≤ w.now ∧
        w.userd_gp_get = r.gp_get ∧ w.userd_pb_get = r.pb_get :=
  wdt_run_recovery_after_limit cfg ops s History.none s.limit_ms
    (by simp [history_agrees, History.none, hrun]) hwf

/-- The scenario execution: its last step, the check at `t = 150`, invokes the
recovery; the most recent successful timer initialisation is the `start` at
`t = 0` with counters `(5, 5)` (the failed one at `t = 120` does not count),
and `0 + 100 <= 150`. -/
theorem wdt_recovery_not_before_limit_witness :
    force_resets ((wdt_run { CONFIG_NVGPU_CHANNEL_TSG_CONTROL := true } scenario_execution
      scenario_idle History.none).2.getLast (by decide)).events ≠ [] ∧
    ∃ r, ((wdt_run { CONFIG_NVGPU_CHANNEL_TSG_CONTROL := true } scenario_execution
      scenario_idle History.none).2.getLast (by decide)).history.last_init = some r ∧
      r.t_init + scenario_idle.limit_ms ≤ (scenario_world 150 5 5).now ∧
      (scenario_world 150 5 5).userd_gp_get = r.gp_get ∧
      (scenario_world 150 5 5).userd_pb_get = r.pb_get :=
  ⟨by decide,
    wdt_recovery_not_before_limit { CONFIG_NVGPU_CHANNEL_TSG_CONTROL := true }
      scenario_execution scenario_idle rfl (by decide) _ (List.getLast_mem _)
      (scenario_world 150 5 5) (by decide) (by decide)⟩

/-! ## Deadline and snapshot change only together -/

/-- The initialisation step either leaves timer and snapshot as they are (and
does not set `running`), or sets `deadline = now + limit`, the snapshot to
the probed counters and `running` to true. -/
theorem wdt_init_all_or_nothing (w : World) (s : nvgpu_channel_wdt) :
    ((nvgpu_channel_wdt_init w s).1.timer = s.timer ∧
      (nvgpu_channel_wdt_init w s).1.gp_get = s.gp_get ∧
      (nvgpu_channel_wdt_init w s).1.pb_get = s.pb_get) ∨
    ((nvgpu_channel_wdt_init w s).1.timer.time = w.now + s.limit_ms ∧
      (nvgpu_channel_wdt_init w s).1.gp_get = w.userd_gp_get ∧
      (nvgpu_channel_wdt_init w s).1.pb_get = w.userd_pb_get ∧
      (nvgpu_channel_wdt_init w s).1.running = true) := by
  cases hu : w.unserviceable <;> by_cases hi : w.timeout_init_ret = 0 <;>
    simp [nvgpu_channel_wdt_init, nvgpu_timeout_init, hu, hi]

/-- C21: for every operation (`start`, `stop`, `continue`, `rewind`,
`rewind_all`, `check`) and every watchdog state, either deadline and snapshot
are both unchanged by the operation, or the operation was called with a world
`w` and afterwards `deadline = w.now + limit`, the snapshot is the pair probed
in `w` and `running = true`; so deadline and snapshot are never updated one
without the other.  `stop`, `continue` and a `check` that finds no progress
never change them. -/
theorem wdt_deadline_snapshot_together (cfg : BuildConfig) (op : Op) (s : nvgpu_channel_wdt) :
    (((wdt_step cfg op s).2.1.timer = s.timer ∧
        (wdt_step cfg op s).2.1.gp_get = s.gp_get ∧
        (wdt_step cfg op s).2.1.pb_get = s.pb_get) ∨
      (∃ w, op.world = some w ∧
        (wdt_step cfg op s).2.1.timer.time = w.now + s.limit_ms ∧
        (wdt_step cfg op s).2.1.gp_get = w.userd_gp_get ∧
        (wdt_step cfg op s).2.1.pb_get = w.userd_pb_get ∧
        (wdt_step cfg op s).2.1.running = true)) ∧
    ((op = Op.wdt_stop ∨ op = Op.wdt_continue ∨
        ∃ w, op = Op.wdt_check w ∧ w.userd_gp_get = s.gp_get ∧ w.userd_pb_get = s.pb_get) →
      (wdt_step cfg op s).2.1.timer = s.timer ∧
      (wdt_step cfg op s).2.1.gp_get = s.gp_get ∧
      (wdt_step cfg op s).2.1.pb_get = s.pb_get) := by
  constructor
  · cases op with
    | wdt_stop => left; simp [wdt_step, nvgpu_channel_wdt_stop]
    | wdt_continue => left; simp [wdt_step, nvgpu_channel_wdt_continue]
    | wdt_start w =>
      have hi := wdt_init_all_or_nothing w s
      cases hp : w.timeouts_enabled <;> cases he : s.enabled <;> cases hr : s.running <;>
        simp_all [wdt_step, nvgpu_channel_wdt_start, Op.world]
    | wdt_rewind w =>
      have hi := wdt_init_all_or_nothing w s
      cases hr : s.running <;> simp_all [wdt_step, nvgpu_channel_wdt_rewind, Op.world]
    | wdt_restart_all r w =>
      have hi := wdt_init_all_or_nothing w s
      cases r <;> cases hu : w.unserviceable <;> cases hr : s.running <;>
        simp_all [wdt_step, restart_all_channels_body, nvgpu_channel_from_id,
          nvgpu_channel_wdt_rewind, Op.world]
    | wdt_check w =>
      have hi := wdt_init_all_or_nothing w s
      cases hr : s.running
      · simp [wdt_step, nvgpu_channel_wdt_check, hr]
      · cases hu : w.unserviceable
        · by_cases hprog : w.userd_gp_get ≠ s.gp_get ∨ w.userd_pb_get ≠ s.pb_get
          · simp only [wdt_step, nvgpu_channel_wdt_check, nvgpu_channel_wdt_handler,
              nvgpu_channel_wdt_rewind, hr, hu, hprog, Op.world, if_true, Bool.false_eq_true,
              if_false, Option.some.injEq, exists_eq_left']
            exact hi
          · left
            by_cases hx : s.timer.time ≤ w.now <;>
              simp [wdt_step, nvgpu_channel_wdt_check, nvgpu_channel_wdt_handler,
                nvgpu_timeout_peek_expired, hr, hu, hprog, hx]
        · left
          simp [wdt_step, nvgpu_channel_wdt_check, nvgpu_channel_wdt_handler,
            nvgpu_channel_wdt_stop, hr, hu]
  · rintro (h | h | ⟨w, h, hgp, hpb⟩)
    · subst h; simp [wdt_step, nvgpu_channel_wdt_stop]
    · subst h; simp [wdt_step, nvgpu_channel_wdt_continue]
    · subst h
      cases hr : s.running
      · simp [wdt_step, nvgpu_channel_wdt_check, hr]
      · cases hu : w.unserviceable
        · by_cases hx : s.timer.time ≤ w.now <;>
            simp [wdt_step, nvgpu_channel_wdt_check, nvgpu_channel_wdt_handler,
              nvgpu_timeout_peek_expired, hr, hu, hgp, hpb, hx]
        · simp [wdt_step, nvgpu_channel_wdt_check, nvgpu_channel_wdt_handler,
            nvgpu_channel_wdt_stop, hr, hu]

/-- The check with progress of scenario B updates deadline and snapshot
together (250 and `(7, 5)`), the check without progress of scenario A changes
neither. -/
theorem wdt_deadline_snapshot_together_witness :
    (wdt_step { CONFIG_NVGPU_CHANNEL_TSG_CONTROL := true }
      (Op.wdt_check (scenario_world 150 5 5)) scenario_wdt).2.1.timer = scenario_wdt.timer ∧
    (wdt_step { CONFIG_NVGPU_CHANNEL_TSG_CONTROL := true }
      (Op.wdt_check (scenario_world 150 5 5)) scenario_wdt).2.1.gp_get = scenario_wdt.gp_get ∧
    (wdt_step { CONFIG_NVGPU_CHANNEL_TSG_CONTROL := true }
      (Op.wdt_check (scenario_world 150 5 5)) scenario_wdt).2.1.pb_get = scenario_wdt.pb_get :=
  (wdt_deadline_snapshot_together { CONFIG_NVGPU_CHANNEL_TSG_CONTROL := true }
    (Op.wdt_check (scenario_world 150 5 5)) scenario_wdt).2
    (Or.inr (Or.inr ⟨scenario_world 150 5 5, rfl, rfl, rfl⟩))

/-! ## `stop` followed by `continue` -/

/-- C22: for a running watchdog, `stop` followed by `continue` restores exactly
the original state: `running` is true again and deadline and snapshot are
those from before the `stop`; so a later `check`, in any world, does exactly
what it would have done on the original state (it measures expiry against
the original deadline, not a fresh window). -/
theorem wdt_stop_continue_restores (s : nvgpu_channel_wdt) (hrun : s.running = true) :
    (nvgpu_channel_wdt_continue (nvgpu_channel_wdt_stop s).2.1).1 = s ∧
    (nvgpu_channel_wdt_continue (nvgpu_channel_wdt_stop s).2.1).1.running = true ∧
    (nvgpu_channel_wdt_continue (nvgpu_channel_wdt_stop s).2.1).1.timer = s.timer ∧
    (nvgpu_channel_wdt_continue (nvgpu_channel_wdt_stop s).2.1).1.gp_get = s.gp_get ∧
    (nvgpu_channel_wdt_continue (nvgpu_channel_wdt_stop s).2.1).1.pb_get = s.pb_get ∧
    ∀ cfg w, nvgpu_channel_wdt_check cfg w
        (nvgpu_channel_wdt_continue (nvgpu_channel_wdt_stop s).2.1).1 =
      nvgpu_channel_wdt_check cfg w s := by
  have h : (nvgpu_channel_wdt_continue (nvgpu_channel_wdt_stop s).2.1).1 = s := by
    cases s
    simp_all [nvgpu_channel_wdt_continue, nvgpu_channel_wdt_stop]
  refine ⟨h, ?_, ?_, ?_, ?_, ?_⟩ <;> simp [h, hrun]

/-- The armed scenario watchdog (started at `t = 0`, deadline 100) is stopped
and continued: the state is as before, and a check at `t = 150` without
progress still recovers. -/
theorem wdt_stop_continue_restores_witness :
    (nvgpu_channel_wdt_continue (nvgpu_channel_wdt_stop scenario_wdt).2.1).1 = scenario_wdt ∧
    nvgpu_channel_wdt_check { CONFIG_NVGPU_CHANNEL_TSG_CONTROL := true } (scenario_world 150 5 5)
        (nvgpu_channel_wdt_continue (nvgpu_channel_wdt_stop scenario_wdt).2.1).1 =
      nvgpu_channel_wdt_check { CONFIG_NVGPU_CHANNEL_TSG_CONTROL := true }
        (scenario_world 150 5 5) scenario_wdt :=
  have h := wdt_stop_continue_restores scenario_wdt rfl
  ⟨h.1, h.2.2.2.2.2 { CONFIG_NVGPU_CHANNEL_TSG_CONTROL := true } (scenario_world 150 5 5)⟩

/-! ## Lock discipline -/

/-- C23: in every execution of `check`, the recovery action and the diagnostic
dump are invoked only while the watchdog lock is not held: in the trace of the
call no `force_reset` and no `gr_debug_dump` event lies between a lock acquire
and its release (and every acquire of the trace is followed by its release). -/
theorem wdt_check_recovers_outside_lock (cfg : BuildConfig) (w : World)
    (s : nvgpu_channel_wdt) :
    calls_outside_lock false (nvgpu_channel_wdt_check cfg w s).2 = true ∧
    lock_balanced false (nvgpu_channel_wdt_check cfg w s).2 = true := by
  cases hr : s.running
  · simp [nvgpu_channel_wdt_check, calls_outside_lock, lock_balanced, hr]
  · cases hu : w.unserviceable
    · by_cases hprog : w.userd_gp_get ≠ s.gp_get ∨ w.userd_pb_get ≠ s.pb_get
      · by_cases hi : w.timeout_init_ret = 0 <;>
          simp [nvgpu_channel_wdt_check, nvgpu_channel_wdt_handler, nvgpu_channel_wdt_rewind,
            nvgpu_channel_wdt_init, nvgpu_timeout_init, calls_outside_lock, lock_balanced,
            hr, hu, hprog, hi]
      · by_cases hx : s.timer.time ≤ w.now
        · cases hd : s.debug_dump <;> cases hc : cfg.CONFIG_NVGPU_CHANNEL_TSG_CONTROL <;>
            by_cases hf : w.force_reset_ret = 0 <;>
            simp [nvgpu_channel_wdt_check, nvgpu_channel_wdt_handler,
              nvgpu_timeout_peek_expired, calls_outside_lock, lock_balanced,
              hr, hu, hprog, hx, hd, hc, hf]
        · simp [nvgpu_channel_wdt_check, nvgpu_channel_wdt_handler,
            nvgpu_timeout_peek_expired, calls_outside_lock, lock_balanced,
            hr, hu, hprog, hx]
    · simp [nvgpu_channel_wdt_check, nvgpu_channel_wdt_handler, nvgpu_channel_wdt_stop,
        calls_outside_lock, lock_balanced, hr, hu]

/-- The watchdog events of a channel, tagged with its id, are recovered from
the walk. -/
theorem channel_events_on_channel (chid : Nat) (l : List Event) (t : List FifoEvent) :
    channel_events (l.map (FifoEvent.on_channel chid) ++ t) = l ++ channel_events t := by
  induction l with
  | nil => simp
  | cons e l ih => simp [channel_events, ih]

/-- C24, as stated, fails: `start` reads the `enabled` flag before it takes
the lock, and a `check` that finds no progress reads the timer (the expiry
test) and the `debug_dump` flag after it has released the lock. -/
theorem wdt_fields_read_without_lock :
    Event.rd WdtField.enabled ∈
      unlocked_accesses false (nvgpu_channel_wdt_start (scenario_world 0 5 5) scenario_idle).2 ∧
    Event.rd WdtField.timer ∈
      unlocked_accesses false (nvgpu_channel_wdt_check { CONFIG_NVGPU_CHANNEL_TSG_CONTROL := true }
        (scenario_world 150 5 5) scenario_wdt).2 ∧
    Event.rd WdtField.debug_dump ∈
      unlocked_accesses false (nvgpu_channel_wdt_check { CONFIG_NVGPU_CHANNEL_TSG_CONTROL := true }
        (scenario_world 150 5 5) scenario_wdt).2 := by
  decide

/-- C24 (amended): every write of a field of the watchdog state, and every
read of `running`, `gp_get`, `pb_get` and `limit_ms`, performed by `start`,
`stop`, `continue`, `rewind`, `rewind_all`, `check` and the timeout handler
happens while the unit's watchdog lock is held, and every acquire is matched
by a release. -/
theorem wdt_writes_under_lock (cfg : BuildConfig) (op : Op) (s : nvgpu_channel_wdt) :
    (unlocked_accesses false (wdt_step cfg op s).2.2).all (fun e => !e.needs_lock) = true ∧
    lock_balanced false (wdt_step cfg op s).2.2 = true := by
  cases op with
  | wdt_stop =>
    simp [wdt_step, nvgpu_channel_wdt_stop, unlocked_accesses, lock_balanced]
  | wdt_continue =>
    simp [wdt_step, nvgpu_channel_wdt_continue, unlocked_accesses, lock_balanced]
  | wdt_start w =>
    cases hp : w.timeouts_enabled <;> cases he : s.enabled <;> cases hr : s.running <;>
      cases hu : w.unserviceable <;> by_cases hi : w.timeout_init_ret = 0 <;>
      simp [wdt_step, nvgpu_channel_wdt_start, nvgpu_channel_wdt_init, nvgpu_timeout_init,
        unlocked_accesses, lock_balanced, Event.needs_lock, hp, he, hr, hu, hi]
  | wdt_rewind w =>
    cases hr : s.running <;> cases hu : w.unserviceable <;>
      by_cases hi : w.timeout_init_ret = 0 <;>
      simp [wdt_step, nvgpu_channel_wdt_rewind, nvgpu_channel_wdt_init, nvgpu_timeout_init,
        unlocked_accesses, lock_balanced, hr, hu, hi]
  | wdt_restart_all r w =>
    have hce : ∀ l : List Event, channel_events
        ([FifoEvent.channel_from_id 0] ++ l.map (FifoEvent.on_channel 0) ++
          [FifoEvent.channel_put 0]) = l := by
      intro l
      simp [channel_events, channel_events_on_channel]
    cases r
    · simp [wdt_step, restart_all_channels_body, nvgpu_channel_from_id, channel_events,
        unlocked_accesses, lock_balanced]
    · cases hr : s.running <;> cases hu : w.unserviceable <;>
        by_cases hi : w.timeout_init_ret = 0 <;>
        simp [wdt_step, restart_all_channels_body, nvgpu_channel_from_id, hce,
          nvgpu_channel_wdt_rewind, nvgpu_channel_wdt_init, nvgpu_timeout_init,
          unlocked_accesses, lock_balanced, hr, hu, hi]
  | wdt_check w =>
    cases hr : s.running
    · simp [wdt_step, nvgpu_channel_wdt_check, unlocked_accesses, lock_balanced, hr]
    · cases hu : w.unserviceable
      · by_cases hprog : w.userd_gp_get ≠ s.gp_get ∨ w.userd_pb_get ≠ s.pb_get
        · by_cases hi : w.timeout_init_ret = 0 <;>
            simp [wdt_step, nvgpu_channel_wdt_check, nvgpu_channel_wdt_handler,
              nvgpu_channel_wdt_rewind, nvgpu_channel_wdt_init, nvgpu_timeout_init,
              unlocked_accesses, lock_balanced, hr, hu, hprog, hi]
        · by_cases hx : s.timer.time ≤ w.now
          · cases hd : s.debug_dump <;> cases hc : cfg.CONFIG_NVGPU_CHANNEL_TSG_CONTROL <;>
              by_cases hf : w.force_reset_ret = 0 <;>
              simp [wdt_step, nvgpu_channel_wdt_check, nvgpu_channel_wdt_handler,
                nvgpu_timeout_peek_expired, unlocked_accesses, lock_balanced,
                Event.needs_lock, hr, hu, hprog, hx, hd, hc, hf]
          · simp [wdt_step, nvgpu_channel_wdt_check, nvgpu_channel_wdt_handler,
              nvgpu_timeout_peek_expired, unlocked_accesses, lock_balanced,
              Event.needs_lock, hr, hu, hprog, hx]
      · simp [wdt_step, nvgpu_channel_wdt_check, nvgpu_channel_wdt_handler,
          nvgpu_channel_wdt_stop, unlocked_accesses, lock_balanced, hr, hu]

/-! ## `stop` racing with `check` -/

/-- The force resets of a concatenated trace. -/
theorem force_resets_append (a b : List Event) :
    force_resets (a ++ b) = force_resets a ++ force_resets b := by
  induction a with
  | nil => simp [force_resets]
  | cons e a ih => cases e <;> simp [force_resets, ih]

/-- A finished check takes no further steps. -/
theorem check_run_done (cfg : BuildConfig) (w : World) (n : Nat) (s : nvgpu_channel_wdt) :
    check_run cfg w n CheckPc.done s = (CheckPc.done, s, []) := by
  induction n with
  | zero => simp [check_run]
  | succ n ih => simp [check_run, check_step, ih]

/-- Running `a + b` steps is running `a` steps and then `b` steps. -/
theorem check_run_add (cfg : BuildConfig) (w : World) (a b : Nat) (pc : CheckPc)
    (s : nvgpu_channel_wdt) :
    check_run cfg w (a + b) pc s =
      ((check_run cfg w b (check_run cfg w a pc s).1 (check_run cfg w a pc s).2.1).1,
        (check_run cfg w b (check_run cfg w a pc s).1 (check_run cfg w a pc s).2.1).2.1,
        (check_run cfg w a pc s).2.2 ++
          (check_run cfg w b (check_run cfg w a pc s).1 (check_run cfg w a pc s).2.1).2.2) := by
  induction a generalizing pc s with
  | zero => simp [check_run]
  | succ a ih =>
    rw [Nat.succ_add]
    simp only [check_run, ih, List.append_assoc]

/-- The atomic steps, run without interference, are the sequential `check`:
six steps finish the check with the state and the trace of
`nvgpu_channel_wdt_check`. -/
theorem check_run_is_check (cfg : BuildConfig) (w : World) (s : nvgpu_channel_wdt) :
    check_run cfg w 6 CheckPc.read_running s =
      (CheckPc.done, (nvgpu_channel_wdt_check cfg w s).1, (nvgpu_channel_wdt_check cfg w s).2) := by
  cases hr : s.running
  · simp [check_run, check_step, nvgpu_channel_wdt_check, hr]
  · cases hu : w.unserviceable
    · by_cases hprog : w.userd_gp_get ≠ s.gp_get ∨ w.userd_pb_get ≠ s.pb_get
      · simp [check_run, check_step, nvgpu_channel_wdt_check, nvgpu_channel_wdt_handler,
          hr, hu, hprog]
      · by_cases hx : s.timer.time ≤ w.now <;>
          simp [check_run, check_step, nvgpu_channel_wdt_check, nvgpu_channel_wdt_handler,
            nvgpu_timeout_peek_expired, hr, hu, hprog, hx]
    · simp [check_run, check_step, nvgpu_channel_wdt_check, nvgpu_channel_wdt_handler,
        hr, hu]

/-- A rewind calls no recovery. -/
theorem wdt_rewind_no_recovery (w : World) (s : nvgpu_channel_wdt) :
    force_resets (nvgpu_channel_wdt_rewind w s).2 = [] := by
  cases hr : s.running <;> cases hu : w.unserviceable <;>
    by_cases hi : w.timeout_init_ret = 0 <;>
    simp [nvgpu_channel_wdt_rewind, nvgpu_channel_wdt_init, nvgpu_timeout_init, force_resets,
      hr, hu, hi]

/-- Past its first step a check never looks at `running` again before it
decides: the recoveries of the remaining steps are the same whatever value
`running` has been given in between. -/
theorem check_run_recoveries_ignore_running (cfg : BuildConfig) (w : World) (n : Nat)
    (pc : CheckPc) (s : nvgpu_channel_wdt) (b : Bool) (hpc : pc ≠ CheckPc.read_running) :
    force_resets (check_run cfg w n pc { s with running := b }).2.2 =
      force_resets (check_run cfg w n pc s).2.2 := by
  induction n generalizing pc s with
  | zero => simp [check_run]
  | succ n ih =>
    cases pc with
    | read_running => exact absurd rfl hpc
    | test_serviceable =>
      cases hu : w.unserviceable <;>
        simp [check_run, check_step, force_resets_append, force_resets, hu, ih]
    | stop_unserviceable =>
      cases hr : s.running <;> cases b <;>
        simp [check_run, check_step, check_run_done, nvgpu_channel_wdt_stop,
          force_resets_append, force_resets, hr]
    | read_snapshot =>
      simp [check_run, check_step, force_resets_append, force_resets, ih]
    | read_probe gp pb =>
      by_cases hprog : w.userd_gp_get ≠ gp ∨ w.userd_pb_get ≠ pb <;>
        simp [check_run, check_step, force_resets_append, force_resets, hprog, ih]
    | rewind =>
      simp [check_run, check_step, check_run_done, force_resets_append,
        wdt_rewind_no_recovery]
    | test_expired =>
      by_cases hx : s.timer.time ≤ w.now <;>
        simp [check_run, check_step, nvgpu_timeout_peek_expired, force_resets_append,
          force_resets, hx, ih, check_run_done]
    | recover =>
      simp [check_run, check_step, check_run_done, force_resets_append]
    | done => simp [check_run_done]

/-- After at least one step a check is past reading `running`. -/
theorem check_run_past_read_running (cfg : BuildConfig) (w : World) (k : Nat)
    (s : nvgpu_channel_wdt) :
    (check_run cfg w (k + 1) CheckPc.read_running s).1 ≠ CheckPc.read_running := by
  have hstep : ∀ (n : Nat) (pc : CheckPc) (t : nvgpu_channel_wdt),
      pc ≠ CheckPc.read_running → (check_run cfg w n pc t).1 ≠ CheckPc.read_running := by
    intro n
    induction n with
    | zero => intro pc t h; simpa [check_run] using h
    | succ n ih =>
      intro pc t h
      simp only [check_run]
      apply ih
      cases pc with
      | read_running => exact absurd rfl h
      | test_serviceable => cases hu : w.unserviceable <;> simp [check_step, hu]
      | stop_unserviceable => simp [check_step]
      | read_snapshot => simp [check_step]
      | read_probe gp pb =>
        by_cases hprog : w.userd_gp_get ≠ gp ∨ w.userd_pb_get ≠ pb <;>
          simp [check_step, hprog]
      | rewind => simp [check_step]
      | test_expired =>
        by_cases hx : t.timer.time ≤ w.now <;>
          simp [check_step, nvgpu_timeout_peek_expired, hx]
      | recover => simp [check_step]
      | done => simp [check_step]
  rw [Nat.add_comm, check_run_add]
  apply hstep
  cases hr : s.running <;> simp [check_run, check_step, hr]

/-- C25, as stated, fails: in scenario A at `t = 150` a `stop` that completes
right after the check has read `running` (one step done), or right before
the expiry test (four steps done: the decision is not yet taken), does not
keep the check from invoking the recovery action on the stopped unit. -/
theorem wdt_stop_during_check_still_recovers :
    before_decision { CONFIG_NVGPU_CHANNEL_TSG_CONTROL := true } (scenario_world 150 5 5) 1
      scenario_wdt = true ∧
    force_resets (check_with_stop { CONFIG_NVGPU_CHANNEL_TSG_CONTROL := true }
      (scenario_world 150 5 5) 1 scenario_wdt).2 ≠ [] ∧
    before_decision { CONFIG_NVGPU_CHANNEL_TSG_CONTROL := true } (scenario_world 150 5 5) 4
      scenario_wdt = true ∧
    force_resets (check_with_stop { CONFIG_NVGPU_CHANNEL_TSG_CONTROL := true }
      (scenario_world 150 5 5) 4 scenario_wdt).2 ≠ [] ∧
    (check_with_stop { CONFIG_NVGPU_CHANNEL_TSG_CONTROL := true }
      (scenario_world 150 5 5) 4 scenario_wdt).1.running = false := by
  decide

/-- C25 (amended): when `stop` races with `check` on the same unit, if `stop`
completes before the check reads `running` (its first atomic step), the
recovery action is not invoked.  A `stop` that completes after that step, at
whatever later point, does not change the recoveries of the check: they are
those of the undisturbed `nvgpu_channel_wdt_check`. -/
theorem wdt_stop_before_check_no_recovery (cfg : BuildConfig) (w : World)
    (s : nvgpu_channel_wdt) :
    force_resets (check_with_stop cfg w 0 s).2 = [] ∧
    ∀ k, force_resets (check_with_stop cfg w (k + 1) s).2 =
      force_resets (nvgpu_channel_wdt_check cfg w s).2 := by
  constructor
  · simp [check_with_stop, check_run_is_check, nvgpu_channel_wdt_stop,
      nvgpu_channel_wdt_check, force_resets, force_resets_append, check_run]
  · intro k
    have hpc := check_run_past_read_running cfg w k s
    have hign := check_run_recoveries_ignore_running cfg w 6
      (check_run cfg w (k + 1) CheckPc.read_running s).1
      (check_run cfg w (k + 1) CheckPc.read_running s).2.1 false hpc
    have hall : check_run cfg w (k + 1 + 6) CheckPc.read_running s =
        check_run cfg w (6 + (k + 1)) CheckPc.read_running s := by
      rw [Nat.add_comm]
    rw [check_run_add, check_run_add cfg w 6 (k + 1), check_run_is_check] at hall
    simp only [check_run_done] at hall
    have htr := congrArg (fun r => force_resets r.2.2) hall
    simp only [force_resets_append, List.append_nil] at htr
    have hstop : ∀ x, force_resets (nvgpu_channel_wdt_stop x).2.2 = [] := fun _ => rfl
    have hstate : ∀ x, (nvgpu_channel_wdt_stop x).2.1 = { x with running := false } :=
      fun _ => rfl
    unfold check_with_stop
    simp only [force_resets_append, hstop, hstate, List.append_nil]
    rw [hign]
    exact htr

/-! ## After the recovery -/

/-- A check that calls the force reset runs in a build with the tsg control. -/
theorem wdt_check_recovery_needs_tsg_control (cfg : BuildConfig) (w : World)
    (s : nvgpu_channel_wdt) (hrec : force_resets (nvgpu_channel_wdt_check cfg w s).2 ≠ []) :
    cfg.CONFIG_NVGPU_CHANNEL_TSG_CONTROL = true := by
  obtain ⟨hr, hu, hgp, hpb, hx⟩ := wdt_check_recovery_only_at_decision cfg w s hrec
  cases hc : cfg.CONFIG_NVGPU_CHANNEL_TSG_CONTROL
  · exfalso
    apply hrec
    cases hd : s.debug_dump <;>
      simp [nvgpu_channel_wdt_check, nvgpu_channel_wdt_handler, nvgpu_timeout_peek_expired,
        force_resets, hr, hu, hgp, hpb, hx, hc, hd]
  · rfl

/-- C26: after a check that invokes the recovery action, if the unit has
thereby become unserviceable, the next check sets `running` to false and
invokes no further recovery, and every later check (in any world) is a no-op:
over the whole sequence there is exactly one recovery call, and the state
after the second and after every later check is the original one with
`running = false`. -/
theorem wdt_recovered_unit_goes_idle (cfg : BuildConfig) (s : nvgpu_channel_wdt)
    (h : History) (w1 w2 : World) (ws : List World)
    (hrec : force_resets (nvgpu_channel_wdt_check cfg w1 s).2 ≠ [])
    (hunserv : w2.unserviceable = true) :
    (recoveries (wdt_run cfg
      (Op.wdt_check w1 :: Op.wdt_check w2 :: ws.map Op.wdt_check) s h).2).length = 1 ∧
    (nvgpu_channel_wdt_check cfg w2 (nvgpu_channel_wdt_check cfg w1 s).1).1 =
      { s with running := false } ∧
    force_resets (nvgpu_channel_wdt_check cfg w2 (nvgpu_channel_wdt_check cfg w1 s).1).2 = [] ∧
    (wdt_run cfg (Op.wdt_check w1 :: Op.wdt_check w2 :: ws.map Op.wdt_check) s h).1 =
      { s with running := false } ∧
    ∀ st ∈ ((wdt_run cfg
        (Op.wdt_check w1 :: Op.wdt_check w2 :: ws.map Op.wdt_check) s h).2).drop 2,
      st.state_after = { s with running := false } := by
  have hcfg := wdt_check_recovery_needs_tsg_control cfg w1 s hrec
  obtain ⟨hr, hu, hgp, hpb, hx⟩ := wdt_check_recovery_only_at_decision cfg w1 s hrec
  obtain ⟨h1s, h1r, _⟩ := wdt_check_timeout_decision cfg w1 s hcfg hr hu hgp hpb hx
  have h2s : (nvgpu_channel_wdt_check cfg w2 s).1 = { s with running := false } := by
    simp [nvgpu_channel_wdt_check, nvgpu_channel_wdt_handler, nvgpu_channel_wdt_stop,
      hr, hunserv]
  have h2r : force_resets (nvgpu_channel_wdt_check cfg w2 s).2 = [] := by
    simp [nvgpu_channel_wdt_check, nvgpu_channel_wdt_handler, nvgpu_channel_wdt_stop,
      force_resets, hr, hunserv]
  have hops : ∀ op ∈ ws.map Op.wdt_check, op.is_check_or_rewind = true := by
    intro op hop
    obtain ⟨v, _, rfl⟩ := List.mem_map.mp hop
    rfl
  have hrest := fun h3 => wdt_run_not_running cfg (ws.map Op.wdt_check)
    { s with running := false } h3 rfl hops
  refine ⟨?_, by rw [h1s, h2s], by rw [h1s, h2r], ?_, ?_⟩
  · simp only [recoveries] at hrest ⊢
    simp only [wdt_run, wdt_step, h1s, h2s, List.map_cons, List.flatten_cons, h1r, h2r,
      (hrest _).2.1, List.nil_append, List.append_nil, List.length_singleton]
  · simp only [wdt_run, wdt_step, h1s, h2s, (hrest _).1]
  · intro st hst
    simp only [wdt_run, wdt_step, h1s, h2s, List.drop_succ_cons, List.drop_zero] at hst
    exact (hrest _).2.2 st hst

/-- The armed scenario watchdog expires at `t = 150` and is recovered; the
unit is unserviceable at `t = 160`, where the next check stops the watchdog;
the check at `t = 170` does nothing: one recovery in all. -/
theorem wdt_recovered_unit_goes_idle_witness :
    (recoveries (wdt_run { CONFIG_NVGPU_CHANNEL_TSG_CONTROL := true }
      (Op.wdt_check (scenario_world 150 5 5) ::
        Op.wdt_check { scenario_world 160 5 5 with unserviceable := true } ::
        [scenario_world 170 5 5].map Op.wdt_check) scenario_wdt History.none).2).length = 1 ∧
    (wdt_run { CONFIG_NVGPU_CHANNEL_TSG_CONTROL := true }
      (Op.wdt_check (scenario_world 150 5 5) ::
        Op.wdt_check { scenario_world 160 5 5 with unserviceable := true } ::
        [scenario_world 170 5 5].map Op.wdt_check) scenario_wdt History.none).1 =
      { scenario_wdt with running := false } :=
  have h := wdt_recovered_unit_goes_idle { CONFIG_NVGPU_CHANNEL_TSG_CONTROL := true }
    scenario_wdt History.none (scenario_world 150 5 5)
    { scenario_world 160 5 5 with unserviceable := true } [scenario_world 170 5 5]
    (by decide) rfl
  ⟨h.1, h.2.2.2.1⟩

/-! ## Diagnostic dump -/

/-- C27: within `check`, the diagnostic capture (`gk20a_gr_debug_dump`) is
performed if and only if the timeout decision is reached (running,
serviceable, counters unchanged, deadline elapsed) and the `debug_dump` flag
is true; when performed it happens before the recovery call (no force reset
precedes the dump in the trace, and with the tsg control compiled in the
force reset follows it), and every force reset of the check is passed the
value of the `debug_dump` flag. -/
theorem wdt_check_debug_dump (cfg : BuildConfig) (w : World) (s : nvgpu_channel_wdt) :
    (Event.gr_debug_dump ∈ (nvgpu_channel_wdt_check cfg w s).2 ↔
      (s.running = true ∧ w.unserviceable = false ∧ w.userd_gp_get = s.gp_get ∧
        w.userd_pb_get = s.pb_get ∧ s.timer.time ≤ w.now) ∧ s.debug_dump = true) ∧
    (Event.gr_debug_dump ∈ (nvgpu_channel_wdt_check cfg w s).2 →
      force_resets (events_before Event.gr_debug_dump (nvgpu_channel_wdt_check cfg w s).2) = [] ∧
      (cfg.CONFIG_NVGPU_CHANNEL_TSG_CONTROL = true →
        force_resets (events_after Event.gr_debug_dump (nvgpu_channel_wdt_check cfg w s).2) =
          [(ErrNotifier.NVGPU_ERR_NOTIFIER_FIFO_ERROR_IDLE_TIMEOUT, s.debug_dump)])) ∧
    (∀ r ∈ force_resets (nvgpu_channel_wdt_check cfg w s).2, r.2 = s.debug_dump) := by
  cases hr : s.running
  · simp [nvgpu_channel_wdt_check, force_resets, hr]
  · cases hu : w.unserviceable
    · by_cases hprog : w.userd_gp_get ≠ s.gp_get ∨ w.userd_pb_get ≠ s.pb_get
      · have hne : ¬ (w.userd_gp_get = s.gp_get ∧ w.userd_pb_get = s.pb_get ∧
            s.timer.time ≤ w.now) := by
          rintro ⟨h1, h2, _⟩
          rcases hprog with h | h
          · exact h h1
          · exact h h2
        by_cases hi : w.timeout_init_ret = 0 <;>
          simp [nvgpu_channel_wdt_check, nvgpu_channel_wdt_handler, nvgpu_channel_wdt_rewind,
            nvgpu_channel_wdt_init, nvgpu_timeout_init, force_resets, hr, hu, hprog, hi, hne]
      · have hgp : w.userd_gp_get = s.gp_get := by
          by_contra h
          exact hprog (Or.inl h)
        have hpb : w.userd_pb_get = s.pb_get := by
          by_contra h
          exact hprog (Or.inr h)
        by_cases hx : s.timer.time ≤ w.now
        · cases hd : s.debug_dump <;> cases hc : cfg.CONFIG_NVGPU_CHANNEL_TSG_CONTROL <;>
            by_cases hf : w.force_reset_ret = 0 <;>
            simp [nvgpu_channel_wdt_check, nvgpu_channel_wdt_handler,
              nvgpu_timeout_peek_expired, force_resets, events_before, events_after,
              List.takeWhile, List.dropWhile, hr, hu, hgp, hpb, hx, hd, hc, hf]
        · simp [nvgpu_channel_wdt_check, nvgpu_channel_wdt_handler,
            nvgpu_timeout_peek_expired, force_resets, hr, hu, hgp, hpb, hx]
    · simp [nvgpu_channel_wdt_check, nvgpu_channel_wdt_handler, nvgpu_channel_wdt_stop,
        force_resets, hr, hu]

/-! ## `continue` on a watchdog that was never started -/

/-- C28: `continue` arms the watchdog without consulting the `enabled` flag,
the global timeout policy, serviceability or the timer: on every state it
sets `running` and does nothing else.  There is an execution in which a
recovery is invoked although `start` never armed the timer: `continue` on a
freshly created watchdog (not enabled, never started, global policy off),
then a check at `t = 1` on a serviceable unit whose probe reads the untouched
snapshot `(0, 0)`; the deadline 0 of the timer that was never initialised
counts as elapsed. -/
theorem wdt_continue_arms_unstarted_watchdog :
    (∀ s, (nvgpu_channel_wdt_continue s).1.running = true ∧
      (nvgpu_channel_wdt_continue s).2 =
        [Event.spinlock_acquire, Event.wr WdtField.running, Event.spinlock_release]) ∧
    (fresh_wdt 100).enabled = false ∧ (fresh_wdt 100).running = false ∧
    ({ scenario_world 1 0 0 with timeouts_enabled := false } : World).unserviceable = false ∧
    (∀ st ∈ (wdt_run { CONFIG_NVGPU_CHANNEL_TSG_CONTROL := true }
        [Op.wdt_continue, Op.wdt_check { scenario_world 1 0 0 with timeouts_enabled := false }]
        (fresh_wdt 100) History.none).2,
      st.history.last_init = Option.none ∧ st.history.started = false) ∧
    recoveries (wdt_run { CONFIG_NVGPU_CHANNEL_TSG_CONTROL := true }
      [Op.wdt_continue, Op.wdt_check { scenario_world 1 0 0 with timeouts_enabled := false }]
      (fresh_wdt 100) History.none).2 =
      [(ErrNotifier.NVGPU_ERR_NOTIFIER_FIFO_ERROR_IDLE_TIMEOUT, false)] := by
  refine ⟨fun s => by simp [nvgpu_channel_wdt_continue], ?_⟩
  decide

/-! ## Timer initialisation failing on a running watchdog -/

/-- C29: if timer initialisation fails while a running watchdog is
re-initialised (by `rewind`, by the unit's share of `rewind_all`, or by a
`check` that detected progress), the whole watchdog state is left unchanged:
`running` stays true and the old deadline and the old snapshot are kept; that
check invokes no recovery; the failure is logged. -/
theorem wdt_reinit_failure_keeps_state (cfg : BuildConfig) (w : World)
    (s : nvgpu_channel_wdt) (hrun : s.running = true) (hserv : w.unserviceable = false)
    (hfail : w.timeout_init_ret ≠ 0) :
    (nvgpu_channel_wdt_rewind w s).1 = s ∧
    Event.log_err ∈ (nvgpu_channel_wdt_rewind w s).2 ∧
    (wdt_step cfg (Op.wdt_restart_all true w) s).2.1 = s ∧
    ((w.userd_gp_get ≠ s.gp_get ∨ w.userd_pb_get ≠ s.pb_get) →
      (nvgpu_channel_wdt_check cfg w s).1 = s ∧
      (nvgpu_channel_wdt_check cfg w s).1.running = true ∧
      (nvgpu_channel_wdt_check cfg w s).1.timer = s.timer ∧
      (nvgpu_channel_wdt_check cfg w s).1.gp_get = s.gp_get ∧
      (nvgpu_channel_wdt_check cfg w s).1.pb_get = s.pb_get ∧
      force_resets (nvgpu_channel_wdt_check cfg w s).2 = []) := by
  have hrew : (nvgpu_channel_wdt_rewind w s).1 = s := by
    simp [nvgpu_channel_wdt_rewind, nvgpu_channel_wdt_init, nvgpu_timeout_init, hrun, hserv,
      hfail]
    cases s
    simp_all
  refine ⟨hrew, ?_, ?_, ?_⟩
  · simp [nvgpu_channel_wdt_rewind, nvgpu_channel_wdt_init, nvgpu_timeout_init, hrun, hserv,
      hfail]
  · simp [wdt_step, restart_all_channels_body, nvgpu_channel_from_id, hserv, hrew]
  · intro hprog
    have hst : (nvgpu_channel_wdt_check cfg w s).1 = s := by
      simp [nvgpu_channel_wdt_check, nvgpu_channel_wdt_handler, hrun, hserv, hprog, hrew]
    refine ⟨hst, by rw [hst]; exact hrun, by rw [hst], by rw [hst], by rw [hst], ?_⟩
    simp [nvgpu_channel_wdt_check, nvgpu_channel_wdt_handler, nvgpu_channel_wdt_rewind,
      nvgpu_channel_wdt_init, nvgpu_timeout_init, force_resets, hrun, hserv, hprog, hfail]

/-- The check with progress of scenario B, the deadline long elapsed, while
`nvgpu_timeout_init` returns `-22`: the state stays as it was (deadline 100,
snapshot `(5, 5)`, running) and nothing is recovered. -/
theorem wdt_reinit_failure_keeps_state_witness :
    (nvgpu_channel_wdt_check { CONFIG_NVGPU_CHANNEL_TSG_CONTROL := true }
      { scenario_world 150 7 5 with timeout_init_ret := -22 } scenario_wdt).1 = scenario_wdt ∧
    force_resets (nvgpu_channel_wdt_check { CONFIG_NVGPU_CHANNEL_TSG_CONTROL := true }
      { scenario_world 150 7 5 with timeout_init_ret := -22 } scenario_wdt).2 = [] :=
  have h := (wdt_reinit_failure_keeps_state { CONFIG_NVGPU_CHANNEL_TSG_CONTROL := true }
    { scenario_world 150 7 5 with timeout_init_ret := -22 } scenario_wdt rfl rfl
    (by decide)).2.2.2 (Or.inl (by decide))
  ⟨h.1, h.2.2.2.2.2⟩

/-! ## `gr_tu104_get_offset_in_gpccs_segment` -/

/-- The value `least_multiple_ge 256 x` is the smallest multiple of 256 that is
at least `x`. -/
theorem least_multiple_ge_256_spec (x : Nat) :
    256 ∣ least_multiple_ge 256 x ∧ x ≤ least_multiple_ge 256 x ∧
    ∀ m, 256 ∣ m → x ≤ m → least_multiple_ge 256 x ≤ m := by
  refine ⟨⟨(x + 255) / 256, by simp [least_multiple_ge, Nat.mul_comm]⟩, ?_, ?_⟩
  · simp only [least_multiple_ge]
    omega
  · rintro m ⟨c, rfl⟩ hx
    simp only [least_multiple_ge]
    omega

/-- C30, as stated, fails: on `wrap_chip` with one TPC, for ETPC the sum to
round up is `0xFFFFFFFC`; the function returns 0 and writes 0, while the
smallest multiple of 256 that is at least the sum is `2 ^ 32`.  The written
offset 0 is not at least the sum, and no `u32` value is the reference value. -/
theorem gr_tu104_offset_wraps_to_zero :
    egpc_etpc_sum wrap_chip 1 0 0 = 4294967292 ∧
    gr_tu104_get_offset_in_gpccs_segment wrap_chip ctxsw_addr_type.CTXSW_ADDR_TYPE_ETPC 1 0 0 =
      Except.ok 0 ∧
    spec_offset_in_gpccs_segment wrap_chip ctxsw_addr_type.CTXSW_ADDR_TYPE_ETPC 1 0 0 =
      Except.ok 4294967296 ∧
    gr_tu104_get_offset_in_gpccs_segment wrap_chip ctxsw_addr_type.CTXSW_ADDR_TYPE_ETPC 1 0 0 ≠
      spec_offset_in_gpccs_segment wrap_chip ctxsw_addr_type.CTXSW_ADDR_TYPE_ETPC 1 0 0 ∧
    ¬ (egpc_etpc_sum wrap_chip 1 0 0 ≤ 0) ∧
    (∀ v, v < 2 ^ 32 →
      spec_offset_in_gpccs_segment wrap_chip ctxsw_addr_type.CTXSW_ADDR_TYPE_ETPC 1 0 0 ≠
        Except.ok v) := by
  have hsum : egpc_etpc_sum wrap_chip 1 0 0 = 4294967292 := by
    simp [egpc_etpc_sum, wrap_chip]
  have hcode : gr_tu104_get_offset_in_gpccs_segment wrap_chip
      ctxsw_addr_type.CTXSW_ADDR_TYPE_ETPC 1 0 0 = Except.ok 0 := by
    simp [gr_tu104_get_offset_in_gpccs_segment, wrap_chip, ALIGN, u32_add, u32_shl, u32_mul]
  have hspec : spec_offset_in_gpccs_segment wrap_chip
      ctxsw_addr_type.CTXSW_ADDR_TYPE_ETPC 1 0 0 = Except.ok 4294967296 := by
    simp [spec_offset_in_gpccs_segment, hsum, least_multiple_ge]
  refine ⟨hsum, hcode, hspec, ?_, ?_, ?_⟩
  · rw [hcode, hspec]
    simp
  · rw [hsum]
    omega
  · intro v hv
    rw [hspec]
    simp only [ne_eq, Except.ok.injEq]
    omega

/-- C30 (amended): `gr_tu104_get_offset_in_gpccs_segment` equals the reference
`spec_offset_in_gpccs_segment` with the written offset reduced modulo
`2 ^ 32`: with `u32` arithmetic modulo `2 ^ 32` and
`T = (tpc_count * num_tpcs) * 4`, `P = (reg_list_ppc_count * num_ppcs) * 4`,
`G = gpc_count * 4`, it returns 0 and writes 0 for TPC, `T` for PPC, `T + P`
(if `num_pes_per_gpc > 1`, else `T`) for GPC, and for EGPC and ETPC the
smallest multiple of 256 that is at least `T + P + G` (if
`num_pes_per_gpc > 1`, else `T + G`) reduced modulo `2 ^ 32`: that multiple
itself when the sum is at most `2 ^ 32 - 256`, and 0 above.  For every other
address type it returns `-EINVAL` and writes nothing.  So the function equals
the reference itself except for EGPC and ETPC with a sum above
`2 ^ 32 - 256`. -/
theorem gr_tu104_offset_in_gpccs_segment_is_reference_mod (g : gr_tu104_chip)
    (addr_type : ctxsw_addr_type) (num_tpcs num_ppcs reg_list_ppc_count : Nat) :
    gr_tu104_get_offset_in_gpccs_segment g addr_type num_tpcs num_ppcs reg_list_ppc_count =
      (spec_offset_in_gpccs_segment g addr_type num_tpcs num_ppcs reg_list_ppc_count).map
        (fun v => v % 2 ^ 32) ∧
    (egpc_etpc_sum g num_tpcs num_ppcs reg_list_ppc_count ≤ 2 ^ 32 - 256 →
      gr_tu104_get_offset_in_gpccs_segment g addr_type num_tpcs num_ppcs reg_list_ppc_count =
        spec_offset_in_gpccs_segment g addr_type num_tpcs num_ppcs reg_list_ppc_count) ∧
    ((addr_type ≠ ctxsw_addr_type.CTXSW_ADDR_TYPE_EGPC ∧
        addr_type ≠ ctxsw_addr_type.CTXSW_ADDR_TYPE_ETPC) →
      gr_tu104_get_offset_in_gpccs_segment g addr_type num_tpcs num_ppcs reg_list_ppc_count =
        spec_offset_in_gpccs_segment g addr_type num_tpcs num_ppcs reg_list_ppc_count) ∧
    (2 ^ 32 - 256 < egpc_etpc_sum g num_tpcs num_ppcs reg_list_ppc_count →
      gr_tu104_get_offset_in_gpccs_segment g ctxsw_addr_type.CTXSW_ADDR_TYPE_EGPC num_tpcs
        num_ppcs reg_list_ppc_count = Except.ok 0 ∧
      gr_tu104_get_offset_in_gpccs_segment g ctxsw_addr_type.CTXSW_ADDR_TYPE_ETPC num_tpcs
        num_ppcs reg_list_ppc_count = Except.ok 0) ∧
    (∀ x, 256 ∣ least_multiple_ge 256 x ∧ x ≤ least_multiple_ge 256 x ∧
      ∀ m, 256 ∣ m → x ≤ m → least_multiple_ge 256 x ≤ m) ∧
    (∀ n, gr_tu104_get_offset_in_gpccs_segment g (ctxsw_addr_type.other n) num_tpcs num_ppcs
      reg_list_ppc_count = Except.error Errno.EINVAL) := by
  generalize ht : g.tpc_count * num_tpcs = t
  generalize hp : reg_list_ppc_count * num_ppcs = p
  refine ⟨?_, ?_, ?_, ?_, least_multiple_ge_256_spec, fun n => by
    simp [gr_tu104_get_offset_in_gpccs_segment]⟩
  · cases addr_type <;> by_cases hpes : g.num_pes_per_gpc > 1 <;>
      simp only [gr_tu104_get_offset_in_gpccs_segment, spec_offset_in_gpccs_segment,
        egpc_etpc_sum, Except.map, ht, hp,
        hpes, u32_shl, u32_mul, u32_add, ALIGN, least_multiple_ge, if_true, if_false,
        reduceCtorEq, or_true, true_or, or_false, Except.ok.injEq] <;>
      norm_num <;> omega
  · cases addr_type <;> by_cases hpes : g.num_pes_per_gpc > 1 <;>
      simp only [gr_tu104_get_offset_in_gpccs_segment, spec_offset_in_gpccs_segment,
        egpc_etpc_sum, ht, hp,
        hpes, u32_shl, u32_mul, u32_add, ALIGN, least_multiple_ge, if_true, if_false,
        reduceCtorEq, or_true, true_or, or_false, Except.ok.injEq] <;>
      norm_num <;> omega
  · rintro ⟨h1, h2⟩
    cases addr_type <;> by_cases hpes : g.num_pes_per_gpc > 1 <;>
      simp only [gr_tu104_get_offset_in_gpccs_segment, spec_offset_in_gpccs_segment,
        ht, hp, ne_eq, not_true_eq_false,
        hpes, u32_shl, u32_mul, u32_add, if_true, if_false,
        reduceCtorEq, or_true, true_or, or_false, Except.ok.injEq] at h1 h2 ⊢ <;>
      norm_num
  · by_cases hpes : g.num_pes_per_gpc > 1 <;>
      simp only [gr_tu104_get_offset_in_gpccs_segment,
        egpc_etpc_sum, ht, hp,
        hpes, u32_shl, u32_mul, u32_add, ALIGN, if_true, if_false,
        reduceCtorEq, or_true, true_or, or_false, Except.ok.injEq] <;>
      norm_num <;> omega

/-- On `small_chip` with 4 TPCs, 2 PPCs and 10 PPC registers the sum for EGPC
is `1600 + 80 + 120 = 1800`, far below `2 ^ 32 - 256`: the function writes
the smallest multiple of 256 at least 1800, which is 2048. -/
theorem gr_tu104_offset_in_gpccs_segment_is_reference_mod_witness :
    gr_tu104_get_offset_in_gpccs_segment small_chip ctxsw_addr_type.CTXSW_ADDR_TYPE_EGPC 4 2 10 =
      spec_offset_in_gpccs_segment small_chip ctxsw_addr_type.CTXSW_ADDR_TYPE_EGPC 4 2 10 ∧
    spec_offset_in_gpccs_segment small_chip ctxsw_addr_type.CTXSW_ADDR_TYPE_EGPC 4 2 10 =
      Except.ok 2048 :=
  ⟨(gr_tu104_offset_in_gpccs_segment_is_reference_mod small_chip
      ctxsw_addr_type.CTXSW_ADDR_TYPE_EGPC 4 2 10).2.1
      (by simp [egpc_etpc_sum, small_chip]),
    by simp [spec_offset_in_gpccs_segment, egpc_etpc_sum, small_chip, least_multiple_ge]⟩

end Nvgpu
